import Mathlib

/-!
# msm_thermal: the temperature-driven throttling loop

A shallow embedding of `check_temp` from `drivers/thermal/msm_thermal.c`.
The file-scope variables of the driver (`tstat`, `prev_tstat`, `max_freq`,
`msm_thermal_info`) become the fields of `Globals`; one run of the work item
is the function `check_temp`, which returns the new globals together with
the list of calls it made to the rest of the kernel, in program order.

All quantities of the driver are unsigned 32-bit values that are only
compared and copied, never added or multiplied, so they are embedded as `Nat`.
-/

namespace MsmThermal

/-! ## Data model -/

/-- The macro `TSENS_FAILED_RESCHEDULE_MS` (msm_thermal.c, line 31). -/
def TSENS_FAILED_RESCHEDULE_MS : Nat := 100

/-- The enum `throttling_status` (msm_thermal.c, lines 33-37). -/
inductive throttling_status where
  | UNTHROTTLED
  | PHASE1
  | PHASE2
  deriving DecidableEq, Repr

/-- The integer value of an enumerator, as C assigns it: 0, 1, 2. -/
def throttling_status.toNat : throttling_status → Nat
  | .UNTHROTTLED => 0
  | .PHASE1 => 1
  | .PHASE2 => 2

/-- Modelled from the spec: the struct `msm_thermal_data` is declared in
`include/linux/msm_thermal.h`, which is not among the sources. Its ten fields
are the ones the spec lists for `ThermalConfig` and the ones
`msm_thermal_dev_probe` fills with `of_property_read_u32`. -/
structure msm_thermal_data where
  sensor_id : Nat
  poll_ms : Nat
  throttle_poll_ms : Nat
  shutdown_temp : Nat
  allowed_high_temp : Nat
  allowed_high_rel_temp : Nat
  allowed_high_freq : Nat
  allowed_low_temp : Nat
  allowed_low_rel_temp : Nat
  allowed_low_freq : Nat
  deriving DecidableEq, Repr

/-- What the driver takes from headers that are not among the sources: the
value of the macro `MSM_CPUFREQ_NO_LIMIT` (`mach/cpufreq.h`) and the CPU
numbers that `for_each_possible_cpu` visits, in the order it visits them. -/
structure Platform where
  MSM_CPUFREQ_NO_LIMIT : Nat
  possible_cpus : List Nat
  deriving DecidableEq, Repr

/-- The file-scope variables of msm_thermal.c (lines 39-43). `prev_tstat` is an
`unsigned int` in the source and is kept as a number here. -/
structure Globals where
  tstat : throttling_status
  prev_tstat : Nat
  max_freq : Nat
  msm_thermal_info : msm_thermal_data
  deriving DecidableEq, Repr

/-- The calls `check_temp` makes, recorded in program order. The delay of
`queue_delayed_work` is recorded as the millisecond value handed to
`msecs_to_jiffies`. -/
inductive Effect where
  | pr_err_tsens
  | queue_delayed_work (ms : Nat)
  | spin_lock
  | emergency_sync
  | kernel_power_off
  | spin_unlock
  | msm_cpufreq_set_freq_limits (cpu : Nat) (min : Nat) (max : Nat)
  | cpufreq_update_policy (cpu : Nat)
  | pr_debug_policy_failed (cpu : Nat)
  deriving DecidableEq, Repr

/-- What the kernel answers during one run of `check_temp`:
`tsens_get_temp n` is `none` when the read of sensor `n` returns non-zero and
`some temp` when it returns 0 and stores `temp`; the other two fields are the
return codes of `msm_cpufreq_set_freq_limits` and `cpufreq_update_policy` for
each CPU (0 is success). -/
structure PollInput where
  tsens_get_temp : Nat → Option Nat
  set_freq_limits_ret : Nat → Int
  update_policy_ret : Nat → Int

/-! ## check_temp -/

/-- The first `switch (tstat)` of `check_temp` (lines 65-92). The statements
after `kernel_power_off()` are taken as executed when that call returns. -/
def switch_tstat (p : Platform) (temp : Nat) (g : Globals) : Globals × List Effect :=
  match g.tstat with
  | .UNTHROTTLED =>
    if temp ≥ g.msm_thermal_info.allowed_low_temp then
      ({ g with max_freq := g.msm_thermal_info.allowed_low_freq, tstat := .PHASE1 }, [])
    else
      (g, [])
  | .PHASE1 =>
    if temp < g.msm_thermal_info.allowed_low_rel_temp then
      ({ g with max_freq := p.MSM_CPUFREQ_NO_LIMIT, tstat := .UNTHROTTLED }, [])
    else if temp ≥ g.msm_thermal_info.allowed_high_temp then
      ({ g with max_freq := g.msm_thermal_info.allowed_high_freq, tstat := .PHASE2 }, [])
    else
      (g, [])
  | .PHASE2 =>
    if temp < g.msm_thermal_info.allowed_high_rel_temp then
      ({ g with max_freq := g.msm_thermal_info.allowed_low_freq, tstat := .PHASE1 }, [])
    else if temp ≥ g.msm_thermal_info.shutdown_temp then
      (g, [.spin_lock, .emergency_sync, .kernel_power_off, .spin_unlock])
    else
      (g, [])

/-- The body of the `for_each_possible_cpu` loop (lines 95-103), run over the
CPUs in order: the return value of `msm_cpufreq_set_freq_limits` is dropped,
a non-zero return of `cpufreq_update_policy` is only logged. -/
def apply_limits (p : Platform) (inp : PollInput) (max_freq : Nat) : List Nat → List Effect
  | [] => []
  | i :: rest =>
    [.msm_cpufreq_set_freq_limits i p.MSM_CPUFREQ_NO_LIMIT max_freq, .cpufreq_update_policy i]
      ++ (if inp.update_policy_ret i ≠ 0 then [.pr_debug_policy_failed i] else [])
      ++ apply_limits p inp max_freq rest

/-- The `if (tstat != prev_tstat)` block of `check_temp` (lines 94-105). -/
def update_limits (p : Platform) (inp : PollInput) (g : Globals) : Globals × List Effect :=
  if g.tstat.toNat ≠ g.prev_tstat then
    ({ g with prev_tstat := g.tstat.toNat }, apply_limits p inp g.max_freq p.possible_cpus)
  else
    (g, [])

/-- The second `switch (tstat)` of `check_temp` (lines 107-114). -/
def sampling_rate (g : Globals) : Nat :=
  match g.tstat with
  | .UNTHROTTLED => g.msm_thermal_info.poll_ms
  | _ => g.msm_thermal_info.throttle_poll_ms

/-- The function `check_temp` (msm_thermal.c, lines 48-118). -/
def check_temp (p : Platform) (inp : PollInput) (g : Globals) : Globals × List Effect :=
  match inp.tsens_get_temp g.msm_thermal_info.sensor_id with
  | none =>
    (g, [.pr_err_tsens, .queue_delayed_work TSENS_FAILED_RESCHEDULE_MS])
  | some temp =>
    let r1 := switch_tstat p temp g
    let r2 := update_limits p inp r1.1
    (r2.1, r1.2 ++ r2.2 ++ [.queue_delayed_work (sampling_rate r2.1)])

/-! ## Runs of the work item -/

/-- The globals as their static initialisers leave them (lines 39-41), with
`msm_thermal_info` holding the configuration `cfg`. -/
def boot (p : Platform) (cfg : msm_thermal_data) : Globals :=
  { tstat := .UNTHROTTLED, prev_tstat := throttling_status.UNTHROTTLED.toNat,
    max_freq := p.MSM_CPUFREQ_NO_LIMIT, msm_thermal_info := cfg }

/-- The globals after the polls of `hist` have run one after the other. -/
def run_polls (p : Platform) (hist : List PollInput) (g : Globals) : Globals :=
  hist.foldl (fun acc inp => (check_temp p inp acc).1) g

/-- The result (globals and calls) of each poll of `hist`, in order. -/
def poll_results (p : Platform) : List PollInput → Globals → List (Globals × List Effect)
  | [], _ => []
  | inp :: rest, g => check_temp p inp g :: poll_results p rest (check_temp p inp g).1

/-- A poll whose sensor read succeeds with `temp`, every per-CPU call
succeeding. -/
def poll_ok (temp : Nat) : PollInput :=
  { tsens_get_temp := fun _ => some temp, set_freq_limits_ret := fun _ => 0,
    update_policy_ret := fun _ => 0 }

/-- A poll whose sensor read fails. -/
def poll_failed : PollInput :=
  { tsens_get_temp := fun _ => none, set_freq_limits_ret := fun _ => 0,
    update_policy_ret := fun _ => 0 }

/-! ## Vocabulary of the statements -/

/-- The emergency actions: the flush and the power-off. -/
def Effect.is_shutdown : Effect → Bool
  | .emergency_sync => true
  | .kernel_power_off => true
  | _ => false

/-- The calls to the frequency limiter: set-limit and policy-update. -/
def Effect.is_limiter : Effect → Bool
  | .msm_cpufreq_set_freq_limits _ _ _ => true
  | .cpufreq_update_policy _ => true
  | _ => false

/-- The set-limit calls alone. -/
def Effect.is_set_limit : Effect → Bool
  | .msm_cpufreq_set_freq_limits _ _ _ => true
  | _ => false

/-- The re-arm calls. -/
def Effect.is_rearm : Effect → Bool
  | .queue_delayed_work _ => true
  | _ => false

/-- The ceiling the spec associates with a throttle state. -/
def state_ceiling (p : Platform) (cfg : msm_thermal_data) : throttling_status → Nat
  | .UNTHROTTLED => p.MSM_CPUFREQ_NO_LIMIT
  | .PHASE1 => cfg.allowed_low_freq
  | .PHASE2 => cfg.allowed_high_freq

/-- The set-limit and policy-update calls the limiter owes each CPU, in CPU
order. -/
def limiter_calls (p : Platform) (max_freq : Nat) : List Effect :=
  p.possible_cpus.flatMap fun i =>
    [.msm_cpufreq_set_freq_limits i p.MSM_CPUFREQ_NO_LIMIT max_freq, .cpufreq_update_policy i]

/-- The configuration of the worked example of the spec. -/
def example_cfg : msm_thermal_data :=
  { sensor_id := 0, poll_ms := 1000, throttle_poll_ms := 250, shutdown_temp := 95,
    allowed_high_temp := 75, allowed_high_rel_temp := 70, allowed_high_freq := 800,
    allowed_low_temp := 60, allowed_low_rel_temp := 55, allowed_low_freq := 1200 }

/-- The thresholds and ceilings of the worked example of the spec, the three
fields the example leaves open being arbitrary. -/
def worked_cfg (sensor_id poll_ms throttle_poll_ms : Nat) : msm_thermal_data :=
  { sensor_id := sensor_id, poll_ms := poll_ms, throttle_poll_ms := throttle_poll_ms,
    shutdown_temp := 95, allowed_high_temp := 75, allowed_high_rel_temp := 70,
    allowed_high_freq := 800, allowed_low_temp := 60, allowed_low_rel_temp := 55,
    allowed_low_freq := 1200 }

/-- A poll whose sensor read succeeds with `temp`, the per-CPU calls returning
what `sr` and `ur` say. -/
def poll_reading (sr ur : Nat → Int) (temp : Nat) : PollInput :=
  { tsens_get_temp := fun _ => some temp, set_freq_limits_ret := sr, update_policy_ret := ur }

/-- The state after a poll and the emergency actions of that poll. -/
def poll_summary (r : Globals × List Effect) : throttling_status × List Effect :=
  (r.1.tstat, r.2.filter Effect.is_shutdown)

/-- A successful poll reading 62 during which both per-CPU calls fail on CPU 2
(return -22) and succeed on every other CPU. -/
def poll_cpu2_fails : PollInput :=
  { tsens_get_temp := fun _ => some 62,
    set_freq_limits_ret := fun i => if i = 2 then -22 else 0,
    update_policy_ret := fun i => if i = 2 then -22 else 0 }

/-- A four-CPU platform. -/
def example_platform : Platform :=
  { MSM_CPUFREQ_NO_LIMIT := 4294967295, possible_cpus := [0, 1, 2, 3] }

/-! ## Initialisation, probe and the sysfs files -/

/-- The errno value `EINVAL` (`asm-generic/errno-base.h`, not among the
sources). -/
def EINVAL : Int := 22

/-- The errno value `ENOMEM` (`asm-generic/errno-base.h`, not among the
sources). -/
def ENOMEM : Int := 12

/-- What the kernel answers during `msm_thermal_init`, and the constant
`TSENS_MAX_SENSORS` of `linux/msm_tsens.h` (not among the sources):
whether `alloc_workqueue` and `kobject_create_and_add` return a non-null
pointer, and the return code of `sysfs_create_group`. -/
structure InitEnv where
  TSENS_MAX_SENSORS : Nat
  alloc_workqueue_ok : Bool
  kobject_create_ok : Bool
  sysfs_create_group_ret : Int
  deriving DecidableEq, Repr

/-- The calls `msm_thermal_init` and `msm_thermal_dev_probe` make, in program
order. `memcpy_msm_thermal_info d` is the `memcpy` of line 203 with `d` the
data copied; `msm_thermal_init d` is the call of line 298. -/
inductive InitEffect where
  | memcpy_msm_thermal_info (d : msm_thermal_data)
  | alloc_workqueue
  | pr_err_workqueue
  | INIT_DELAYED_WORK
  | queue_delayed_work (ms : Nat)
  | kobject_create_and_add
  | pr_err_kobj
  | sysfs_create_group
  | pr_err_group
  | kobject_put
  | pr_info_initialized
  | pr_warn_sensor_id (sensor_id : Nat)
  | msm_thermal_init (d : msm_thermal_data)
  | pr_info_probed
  | pr_err_probe_failed (key : String)
  deriving DecidableEq, Repr

/-- The function `msm_thermal_init` (msm_thermal.c, lines 196-232): the return
code, the globals afterwards and the calls made. `pdata` is `none` for a null
pointer. -/
def msm_thermal_init (env : InitEnv) (pdata : Option msm_thermal_data) (g : Globals) :
    Int × Globals × List InitEffect :=
  match pdata with
  | none => (-EINVAL, g, [])
  | some d =>
    if d.sensor_id ≥ env.TSENS_MAX_SENSORS then
      (-EINVAL, g, [])
    else if env.alloc_workqueue_ok = false then
      (-ENOMEM, { g with msm_thermal_info := d },
        [.memcpy_msm_thermal_info d, .alloc_workqueue, .pr_err_workqueue])
    else if env.kobject_create_ok = false then
      (-ENOMEM, { g with msm_thermal_info := d },
        [.memcpy_msm_thermal_info d, .alloc_workqueue, .INIT_DELAYED_WORK,
          .queue_delayed_work 0, .kobject_create_and_add, .pr_err_kobj])
    else if env.sysfs_create_group_ret ≠ 0 then
      (env.sysfs_create_group_ret, { g with msm_thermal_info := d },
        [.memcpy_msm_thermal_info d, .alloc_workqueue, .INIT_DELAYED_WORK,
          .queue_delayed_work 0, .kobject_create_and_add, .sysfs_create_group,
          .pr_err_group, .kobject_put])
    else
      (0, { g with msm_thermal_info := d },
        [.memcpy_msm_thermal_info d, .alloc_workqueue, .INIT_DELAYED_WORK,
          .queue_delayed_work 0, .kobject_create_and_add, .sysfs_create_group,
          .pr_info_initialized])

/-- One `of_property_read_u32 (node, key, &field)` of the probe: the value
read, or the key when the call returns non-zero. A device node is given by
the function `node`, which is `none` on the keys that cannot be read. -/
def of_property_read_u32 (node : String → Option Nat) (key : String) : Except String Nat :=
  match node key with
  | some v => .ok v
  | none => .error key

/-- The reads of `msm_thermal_dev_probe` after the sensor id (lines 253-296),
each one leaving through `goto fail` when it fails. -/
def probe_read_rest (node : String → Option Nat) (sensor_id : Nat) :
    Except String msm_thermal_data := do
  let poll_ms ← of_property_read_u32 node "qcom,poll-ms"
  let throttle_poll_ms ← of_property_read_u32 node "qcom,throttle_poll-ms"
  let shutdown_temp ← of_property_read_u32 node "qcom,shutdown_temp"
  let allowed_high_temp ← of_property_read_u32 node "qcom,allowed_high_temp"
  let allowed_high_rel_temp ← of_property_read_u32 node "qcom,allowed_high_rel_temp"
  let allowed_high_freq ← of_property_read_u32 node "qcom,allowed_high_freq"
  let allowed_low_temp ← of_property_read_u32 node "qcom,allowed_low_temp"
  let allowed_low_rel_temp ← of_property_read_u32 node "qcom,allowed_low_rel_temp"
  let allowed_low_freq ← of_property_read_u32 node "qcom,allowed_low_freq"
  pure { sensor_id := sensor_id, poll_ms := poll_ms, throttle_poll_ms := throttle_poll_ms,
         shutdown_temp := shutdown_temp, allowed_high_temp := allowed_high_temp,
         allowed_high_rel_temp := allowed_high_rel_temp,
         allowed_high_freq := allowed_high_freq, allowed_low_temp := allowed_low_temp,
         allowed_low_rel_temp := allowed_low_rel_temp, allowed_low_freq := allowed_low_freq }

/-- The function `msm_thermal_dev_probe` (msm_thermal.c, lines 234-308): the
return code, the globals afterwards and the calls made. The return code of
`msm_thermal_init` is dropped, as in line 298. -/
def msm_thermal_dev_probe (env : InitEnv) (node : String → Option Nat) (g : Globals) :
    Int × Globals × List InitEffect :=
  match of_property_read_u32 node "qcom,sensor-id" with
  | .error key => (-EINVAL, g, [.pr_err_probe_failed key])
  | .ok sensor_id =>
    let fixed : Nat × List InitEffect :=
      if sensor_id ≥ env.TSENS_MAX_SENSORS then (7, [.pr_warn_sensor_id 7]) else (sensor_id, [])
    match probe_read_rest node fixed.1 with
    | .error key => (-EINVAL, g, fixed.2 ++ [.pr_err_probe_failed key])
    | .ok data =>
      let r := msm_thermal_init env (some data) g
      (0, r.2.1, fixed.2 ++ [.msm_thermal_init data] ++ r.2.2 ++ [.pr_info_probed])

/-- The ten properties the probe reads. -/
def required_keys : List String :=
  ["qcom,sensor-id", "qcom,poll-ms", "qcom,throttle_poll-ms", "qcom,shutdown_temp",
   "qcom,allowed_high_temp", "qcom,allowed_high_rel_temp", "qcom,allowed_high_freq",
   "qcom,allowed_low_temp", "qcom,allowed_low_rel_temp", "qcom,allowed_low_freq"]

/-- The nine objects for which `store_one` and `show_one` are instantiated
(lines 148-166). -/
inductive Tunable where
  | shutdown_temp
  | allowed_high_temp
  | allowed_high_rel_temp
  | allowed_high_freq
  | allowed_low_temp
  | allowed_low_rel_temp
  | allowed_low_freq
  | throttle_poll_ms
  | poll_ms
  deriving DecidableEq, Repr

/-- The read `msm_thermal_info.object` of `show_one`. -/
def Tunable.get (t : Tunable) (d : msm_thermal_data) : Nat :=
  match t with
  | .shutdown_temp => d.shutdown_temp
  | .allowed_high_temp => d.allowed_high_temp
  | .allowed_high_rel_temp => d.allowed_high_rel_temp
  | .allowed_high_freq => d.allowed_high_freq
  | .allowed_low_temp => d.allowed_low_temp
  | .allowed_low_rel_temp => d.allowed_low_rel_temp
  | .allowed_low_freq => d.allowed_low_freq
  | .throttle_poll_ms => d.throttle_poll_ms
  | .poll_ms => d.poll_ms

/-- The assignment `msm_thermal_info.object = input` of `store_one`. -/
def Tunable.set (t : Tunable) (input : Nat) (d : msm_thermal_data) : msm_thermal_data :=
  match t with
  | .shutdown_temp => { d with shutdown_temp := input }
  | .allowed_high_temp => { d with allowed_high_temp := input }
  | .allowed_high_rel_temp => { d with allowed_high_rel_temp := input }
  | .allowed_high_freq => { d with allowed_high_freq := input }
  | .allowed_low_temp => { d with allowed_low_temp := input }
  | .allowed_low_rel_temp => { d with allowed_low_rel_temp := input }
  | .allowed_low_freq => { d with allowed_low_freq := input }
  | .throttle_poll_ms => { d with throttle_poll_ms := input }
  | .poll_ms => { d with poll_ms := input }

/-- The function the macro `store_one` generates for the object `t`
(lines 128-142). `sscanf_u buf` stands for `sscanf (buf, "%u", &input)`, a
library function that is not among the sources: `some input` when it returns
1, `none` otherwise. The result is the return value and the globals. -/
def store_one (t : Tunable) (sscanf_u : String → Option Nat) (buf : String) (count : Nat)
    (g : Globals) : Int × Globals :=
  match sscanf_u buf with
  | none => (-EINVAL, g)
  | some input => (count, { g with msm_thermal_info := t.set input g.msm_thermal_info })

/-- A device node that has all ten properties, with the values of the worked
example. -/
def example_node (key : String) : Option Nat :=
  if key = "qcom,sensor-id" then some 0
  else if key = "qcom,poll-ms" then some 1000
  else if key = "qcom,throttle_poll-ms" then some 250
  else if key = "qcom,shutdown_temp" then some 95
  else if key = "qcom,allowed_high_temp" then some 75
  else if key = "qcom,allowed_high_rel_temp" then some 70
  else if key = "qcom,allowed_high_freq" then some 800
  else if key = "qcom,allowed_low_temp" then some 60
  else if key = "qcom,allowed_low_rel_temp" then some 55
  else if key = "qcom,allowed_low_freq" then some 1200
  else none

/-- The node `example_node` without the property `qcom,allowed_low_temp`. -/
def example_node_missing (key : String) : Option Nat :=
  if key = "qcom,allowed_low_temp" then none else example_node key

/-- An environment in which every call of the initialisation succeeds. -/
def example_env : InitEnv :=
  { TSENS_MAX_SENSORS := 11, alloc_workqueue_ok := true, kobject_create_ok := true,
    sysfs_create_group_ret := 0 }

/-- The trace of the probe consists of log messages only: the warning about
the sensor id and the message of the `fail` label. -/
def only_probe_logs (trace : List InitEffect) : Prop :=
  ∀ e ∈ trace, e = .pr_warn_sensor_id 7 ∨ ∃ key, e = .pr_err_probe_failed key

/-! ## Vocabulary of the statements about repeated polls and limits -/

/-- The state the first switch of `check_temp` leaves, as a function of the
configuration, the reading and the state before (the `tstat` component of
`switch_tstat`). -/
def next_tstat (cfg : msm_thermal_data) (temp : Nat) : throttling_status → throttling_status
  | .UNTHROTTLED =>
    if temp ≥ cfg.allowed_low_temp then .PHASE1 else .UNTHROTTLED
  | .PHASE1 =>
    if temp < cfg.allowed_low_rel_temp then .UNTHROTTLED
    else if temp ≥ cfg.allowed_high_temp then .PHASE2
    else .PHASE1
  | .PHASE2 =>
    if temp < cfg.allowed_high_rel_temp then .PHASE1 else .PHASE2

/-- The ordering the spec asks of a configuration:
allowed_low_rel_temp < allowed_low_temp < allowed_high_rel_temp
< allowed_high_temp < shutdown_temp. -/
def thresholds_ordered (cfg : msm_thermal_data) : Prop :=
  cfg.allowed_low_rel_temp < cfg.allowed_low_temp
    ∧ cfg.allowed_low_temp < cfg.allowed_high_rel_temp
    ∧ cfg.allowed_high_rel_temp < cfg.allowed_high_temp
    ∧ cfg.allowed_high_temp < cfg.shutdown_temp

instance (cfg : msm_thermal_data) : Decidable (thresholds_ordered cfg) := by
  unfold thresholds_ordered
  infer_instance

/-- The example configuration with the low release threshold (70) above the
low entry threshold (60). -/
def gapless_cfg : msm_thermal_data :=
  { example_cfg with allowed_low_rel_temp := 70 }

/-- Modelled from the spec: `msm_cpufreq_set_freq_limits` is defined in the
cpufreq code of the platform, which is not among the sources. By the boundary
`set_ceiling (cpu_index, ceiling) -> ok` of the spec, a call that succeeds
(`ret = 0`) makes `(min, max)` the limits of that CPU and touches no other
CPU; a call that fails leaves the limits as they were. -/
def set_freq_limits (ret : Int) (cpu min max : Nat) (limits : Nat → Nat × Nat) :
    Nat → Nat × Nat :=
  if ret = 0 then fun j => if j = cpu then (min, max) else limits j else limits

/-- The per-CPU limits after the calls of a trace, each set-limit call
answering what `inp` says for its CPU. -/
def limits_after (inp : PollInput) : List Effect → (Nat → Nat × Nat) → Nat → Nat × Nat
  | [], limits => limits
  | .msm_cpufreq_set_freq_limits cpu min max :: rest, limits =>
    limits_after inp rest (set_freq_limits (inp.set_freq_limits_ret cpu) cpu min max limits)
  | _ :: rest, limits => limits_after inp rest limits


/-- The example driver in PHASE1 (after a first poll reading 62), after a
write of 1000 to the sysfs file allowed_low_freq. -/
def stale_phase1 : Globals :=
  (store_one .allowed_low_freq (fun _ => some 1000) "1000" 4
    (check_temp example_platform (poll_ok 62) (boot example_platform example_cfg)).1).2

/-- The example driver in PHASE2 (after polls reading 62 and 78), after a
write of 500 to the sysfs file allowed_high_freq. -/
def stale_phase2 : Globals :=
  (store_one .allowed_high_freq (fun _ => some 500) "500" 3
    (run_polls example_platform [poll_ok 62, poll_ok 78] (boot example_platform example_cfg))).2

/-- The example configuration with the low release threshold (80) above
allowed_high_temp (75). -/
def inverted_cfg : msm_thermal_data :=
  { example_cfg with allowed_low_rel_temp := 80 }

end MsmThermal

/-!
# sweep2sleep: the gesture detector

A shallow embedding of `detect_sweep2sleep` from
`drivers/input/touchscreen/sweep2sleep.c`. The file-scope variables the
detector reads and writes are the fields of `Sweep2Sleep.Globals`; a call
returns the new globals and the calls `sweep2sleep_pwrswitch` made.
Coordinates are C `int`s that are only compared, embedded as `Int`.
-/

namespace Sweep2Sleep

/-- The macro `DEFAULT_S2S_Y_MAX` (line 36). -/
def DEFAULT_S2S_Y_MAX : Int := 1920

/-- The macro `DEFAULT_S2S_Y_LIMIT_BOTTOM` (line 37). Like the other macros
that expand to a sum or difference, it is only used as a whole operand of a
comparison or assignment, where the missing parentheses change nothing. -/
def DEFAULT_S2S_Y_LIMIT_BOTTOM : Int := DEFAULT_S2S_Y_MAX - 130

/-- The macro `DEFAULT_S2S_Y_LIMIT_TOP` (line 38). -/
def DEFAULT_S2S_Y_LIMIT_TOP : Int := 100

/-- The macro `DEFAULT_S2S_X_MAX` (line 39). -/
def DEFAULT_S2S_X_MAX : Int := 1080

/-- The macro `DEFAULT_S2S_X_B0` (line 42). -/
def DEFAULT_S2S_X_B0 : Int := 200

/-- The macro `DEFAULT_S2S_X_B1` (line 43). -/
def DEFAULT_S2S_X_B1 : Int := DEFAULT_S2S_X_B0 + 250

/-- The macro `DEFAULT_S2S_X_B2` (line 44). -/
def DEFAULT_S2S_X_B2 : Int := DEFAULT_S2S_X_B0 + 550

/-- The macro `DEFAULT_S2S_X_B3` (line 47). -/
def DEFAULT_S2S_X_B3 : Int := DEFAULT_S2S_X_B0 + 150

/-- The macro `DEFAULT_S2S_X_B4` (line 48). -/
def DEFAULT_S2S_X_B4 : Int := DEFAULT_S2S_X_MAX - 450

/-- The macro `DEFAULT_S2S_X_B5` (line 49). -/
def DEFAULT_S2S_X_B5 : Int := DEFAULT_S2S_X_MAX - DEFAULT_S2S_X_B0

/-- The file-scope variables of sweep2sleep.c that the detector uses
(lines 57-67). The two-element arrays are kept as two fields each:
`bbarrier_0` is `bbarrier[0]`, and so on. -/
structure Globals where
  s2s_enabled : Nat
  vib_enabled : Nat
  vib_trigger_time : Nat
  exec_count : Bool
  scr_on_touch : Bool
  bbarrier_0 : Bool
  bbarrier_1 : Bool
  tbarrier_0 : Bool
  tbarrier_1 : Bool
  reverseb_barrier_0 : Bool
  reverseb_barrier_1 : Bool
  reverset_barrier_0 : Bool
  reverset_barrier_1 : Bool
  deriving DecidableEq, Repr

/-- The calls `sweep2sleep_pwrswitch` makes: `vibrate (vib_trigger_time)` and
`schedule_work (&sweep2sleep_presspwr_work)`. -/
inductive Effect where
  | vibrate (ms : Nat)
  | schedule_work
  deriving DecidableEq, Repr

/-- The function `sweep2sleep_pwrswitch` (lines 90-95). -/
def sweep2sleep_pwrswitch (g : Globals) : List Effect :=
  (if g.vib_enabled ≠ 0 then [.vibrate g.vib_trigger_time] else []) ++ [.schedule_work]

/-- The function `sweep2sleep_reset` (lines 97-109). -/
def sweep2sleep_reset (g : Globals) : Globals :=
  { g with exec_count := true, bbarrier_0 := false, bbarrier_1 := false,
           tbarrier_0 := false, tbarrier_1 := false,
           reverseb_barrier_0 := false, reverseb_barrier_1 := false,
           reverset_barrier_0 := false, reverset_barrier_1 := false,
           scr_on_touch := false }

/-- The statement `if (exec_count) { sweep2sleep_pwrswitch (); exec_count =
false; }` that ends each of the four branches (lines 141-144, 169-172,
197-200, 225-228). -/
def pwrswitch_once (g : Globals) : Globals × List Effect :=
  if g.exec_count = true then ({ g with exec_count := false }, sweep2sleep_pwrswitch g)
  else (g, [])

/-- The branch "s2s bottom: right->left" of `detect_sweep2sleep`
(lines 122-148). -/
def detect_bottom_rl (sweep_coord sweep_height : Int) (g : Globals) : Globals × List Effect :=
  let prevb_coord := DEFAULT_S2S_X_B5
  let nextb_coord := DEFAULT_S2S_X_B2
  if g.bbarrier_0 = true ∨ (sweep_coord < prevb_coord ∧ sweep_coord > nextb_coord
      ∧ sweep_height > DEFAULT_S2S_Y_LIMIT_BOTTOM) then
    let prevb_coord := nextb_coord
    let nextb_coord := DEFAULT_S2S_X_B1
    let g := { g with bbarrier_0 := true }
    if g.bbarrier_1 = true ∨ (sweep_coord < prevb_coord ∧ sweep_coord > nextb_coord
        ∧ sweep_height > DEFAULT_S2S_Y_LIMIT_BOTTOM) then
      let prevb_coord := nextb_coord
      let g := { g with bbarrier_1 := true }
      if sweep_coord < prevb_coord ∧ sweep_height > DEFAULT_S2S_Y_LIMIT_BOTTOM then
        if sweep_coord < DEFAULT_S2S_X_B0 then pwrswitch_once g else (g, [])
      else (g, [])
    else (g, [])
  else (g, [])

/-- The branch "s2s bottom: left->right" (lines 150-176). The third component
is the value the local `reverseb_next_coord` has when the branch is left; the
last branch reads it (line 219). -/
def detect_bottom_lr (sweep_coord sweep_height : Int) (g : Globals) :
    (Globals × List Effect) × Int :=
  let reverseb_prev_coord := DEFAULT_S2S_X_B0
  let reverseb_next_coord := DEFAULT_S2S_X_B3
  if g.reverseb_barrier_0 = true ∨ (sweep_coord > reverseb_prev_coord
      ∧ sweep_coord < reverseb_next_coord ∧ sweep_height > DEFAULT_S2S_Y_LIMIT_BOTTOM) then
    let reverseb_prev_coord := reverseb_next_coord
    let reverseb_next_coord := DEFAULT_S2S_X_B4
    let g := { g with reverseb_barrier_0 := true }
    if g.reverseb_barrier_1 = true ∨ (sweep_coord > reverseb_prev_coord
        ∧ sweep_coord < reverseb_next_coord ∧ sweep_height > DEFAULT_S2S_Y_LIMIT_BOTTOM) then
      let reverseb_prev_coord := reverseb_next_coord
      let g := { g with reverseb_barrier_1 := true }
      if sweep_coord > reverseb_prev_coord ∧ sweep_height > DEFAULT_S2S_Y_LIMIT_BOTTOM then
        if sweep_coord > DEFAULT_S2S_X_B5 then (pwrswitch_once g, reverseb_next_coord)
        else ((g, []), reverseb_next_coord)
      else ((g, []), reverseb_next_coord)
    else ((g, []), reverseb_next_coord)
  else ((g, []), reverseb_next_coord)

/-- The branch "s2s top: right->left" (lines 178-204). -/
def detect_top_rl (sweep_coord sweep_height : Int) (g : Globals) : Globals × List Effect :=
  let prevt_coord := DEFAULT_S2S_X_B5
  let nextt_coord := DEFAULT_S2S_X_B2
  if g.tbarrier_0 = true ∨ (sweep_coord < prevt_coord ∧ sweep_coord > nextt_coord
      ∧ sweep_height < DEFAULT_S2S_Y_LIMIT_TOP) then
    let prevt_coord := nextt_coord
    let nextt_coord := DEFAULT_S2S_X_B1
    let g := { g with tbarrier_0 := true }
    if g.tbarrier_1 = true ∨ (sweep_coord < prevt_coord ∧ sweep_coord > nextt_coord
        ∧ sweep_height < DEFAULT_S2S_Y_LIMIT_TOP) then
      let prevt_coord := nextt_coord
      let g := { g with tbarrier_1 := true }
      if sweep_coord < prevt_coord ∧ sweep_height < DEFAULT_S2S_Y_LIMIT_TOP then
        if sweep_coord < DEFAULT_S2S_X_B0 then pwrswitch_once g else (g, [])
      else (g, [])
    else (g, [])
  else (g, [])

/-- The branch "s2s top: left->right" (lines 206-232). `reverseb_next_coord`
is the local of the bottom branch, which line 219 assigns to
`reverset_prev_coord`. -/
def detect_top_lr (sweep_coord sweep_height : Int) (reverseb_next_coord : Int) (g : Globals) :
    Globals × List Effect :=
  let reverset_prev_coord := DEFAULT_S2S_X_B0
  let reverset_next_coord := DEFAULT_S2S_X_B3
  if g.reverset_barrier_0 = true ∨ (sweep_coord > reverset_prev_coord
      ∧ sweep_coord < reverset_next_coord ∧ sweep_height < DEFAULT_S2S_Y_LIMIT_TOP) then
    let reverset_prev_coord := reverset_next_coord
    let reverset_next_coord := DEFAULT_S2S_X_B4
    let g := { g with reverset_barrier_0 := true }
    if g.reverset_barrier_1 = true ∨ (sweep_coord > reverset_prev_coord
        ∧ sweep_coord < reverset_next_coord ∧ sweep_height < DEFAULT_S2S_Y_LIMIT_TOP) then
      let reverset_prev_coord := reverseb_next_coord
      let g := { g with reverset_barrier_1 := true }
      if sweep_coord > reverset_prev_coord ∧ sweep_height < DEFAULT_S2S_Y_LIMIT_TOP then
        if sweep_coord > DEFAULT_S2S_X_B5 then pwrswitch_once g else (g, [])
      else (g, [])
    else (g, [])
  else (g, [])

/-- The function `detect_sweep2sleep` (lines 111-234): the four branches in
order, under the test `single_touch && s2s_enabled`. -/
def detect_sweep2sleep (sweep_coord sweep_height : Int) (st : Bool) (g : Globals) :
    Globals × List Effect :=
  if st = true ∧ g.s2s_enabled ≠ 0 then
    let g0 := { g with scr_on_touch := true }
    let r1 := detect_bottom_rl sweep_coord sweep_height g0
    let r2 := detect_bottom_lr sweep_coord sweep_height r1.1
    let r3 := detect_top_rl sweep_coord sweep_height r2.1.1
    let r4 := detect_top_lr sweep_coord sweep_height r2.2 r3.1
    (r4.1, r1.2 ++ r2.1.2 ++ r3.2 ++ r4.2)
  else
    (g, [])

/-- One call of `detect_sweep2sleep`, with the value `s2s_enabled` has when
the call is made (the sysfs file may have been written since the last one). -/
structure Call where
  s2s_enabled : Nat
  sweep_coord : Int
  sweep_height : Int
  st : Bool
  deriving DecidableEq, Repr

/-- A sequence of calls of `detect_sweep2sleep` with no `sweep2sleep_reset` in
between: the globals at the end and all calls made, in order. -/
def run_calls : List Call → Globals → Globals × List Effect
  | [], g => (g, [])
  | c :: rest, g =>
    let r := detect_sweep2sleep c.sweep_coord c.sweep_height c.st
      { g with s2s_enabled := c.s2s_enabled }
    ((run_calls rest r.1).1, r.2 ++ (run_calls rest r.1).2)

/-- The number of invocations of `sweep2sleep_pwrswitch` in a trace: each
invocation makes exactly one `schedule_work` call. -/
def pwrswitch_count (trace : List Effect) : Nat :=
  trace.count .schedule_work

/-- The room left for an invocation: 1 while `exec_count` is set, 0 after. -/
def budget (g : Globals) : Nat :=
  if g.exec_count = true then 1 else 0

/-- Some globals with the detector enabled and the vibration off. -/
def example_globals : Globals :=
  { s2s_enabled := 1, vib_enabled := 0, vib_trigger_time := 30, exec_count := false,
    scr_on_touch := true, bbarrier_0 := true, bbarrier_1 := false, tbarrier_0 := false,
    tbarrier_1 := true, reverseb_barrier_0 := false, reverseb_barrier_1 := false,
    reverset_barrier_0 := true, reverset_barrier_1 := false }

/-- The variant of the branch "s2s top: left->right" that C21 compares the
source with: as `detect_top_lr`, except that line 219 reads
`reverset_prev_coord = reverset_next_coord`, the local of the branch itself,
so that the branch no longer depends on the bottom branch. -/
def detect_top_lr_variant (sweep_coord sweep_height : Int) (g : Globals) :
    Globals × List Effect :=
  let reverset_prev_coord := DEFAULT_S2S_X_B0
  let reverset_next_coord := DEFAULT_S2S_X_B3
  if g.reverset_barrier_0 = true ∨ (sweep_coord > reverset_prev_coord
      ∧ sweep_coord < reverset_next_coord ∧ sweep_height < DEFAULT_S2S_Y_LIMIT_TOP) then
    let reverset_prev_coord := reverset_next_coord
    let reverset_next_coord := DEFAULT_S2S_X_B4
    let g := { g with reverset_barrier_0 := true }
    if g.reverset_barrier_1 = true ∨ (sweep_coord > reverset_prev_coord
        ∧ sweep_coord < reverset_next_coord ∧ sweep_height < DEFAULT_S2S_Y_LIMIT_TOP) then
      let reverset_prev_coord := reverset_next_coord
      let g := { g with reverset_barrier_1 := true }
      if sweep_coord > reverset_prev_coord ∧ sweep_height < DEFAULT_S2S_Y_LIMIT_TOP then
        if sweep_coord > DEFAULT_S2S_X_B5 then pwrswitch_once g else (g, [])
      else (g, [])
    else (g, [])
  else (g, [])

/-- The variant of `detect_sweep2sleep` whose last branch is
`detect_top_lr_variant`; the first three branches are those of the source. -/
def detect_sweep2sleep_variant (sweep_coord sweep_height : Int) (st : Bool) (g : Globals) :
    Globals × List Effect :=
  if st = true ∧ g.s2s_enabled ≠ 0 then
    let g0 := { g with scr_on_touch := true }
    let r1 := detect_bottom_rl sweep_coord sweep_height g0
    let r2 := detect_bottom_lr sweep_coord sweep_height r1.1
    let r3 := detect_top_rl sweep_coord sweep_height r2.1.1
    let r4 := detect_top_lr_variant sweep_coord sweep_height r3.1
    (r4.1, r1.2 ++ r2.1.2 ++ r3.2 ++ r4.2)
  else
    (g, [])

/-- Globals in which the top left-to-right sweep has passed its two barriers
and no bottom barrier is set. -/
def top_lr_armed : Globals :=
  { s2s_enabled := 1, vib_enabled := 1, vib_trigger_time := 30, exec_count := true,
    scr_on_touch := true, bbarrier_0 := false, bbarrier_1 := false, tbarrier_0 := false,
    tbarrier_1 := false, reverseb_barrier_0 := false, reverseb_barrier_1 := false,
    reverset_barrier_0 := true, reverset_barrier_1 := true }

end Sweep2Sleep

/-!
# alu_t_boost: the input handler

A shallow embedding of `touchboost_input_event` and of the work item it
queues, `do_input_boost`, from `drivers/input/touchscreen/alu_t_boost.c`.
-/

namespace TouchBoost

/-- The macro `USEC_PER_MSEC` of `linux/time.h` (not among the sources), where
it is the `long` constant `1000L`. -/
def USEC_PER_MSEC : Nat := 1000

/-- The width of `long` and `unsigned long` on the 32-bit ARM this kernel is
built for (apq8064). -/
def BITS_PER_LONG : Nat := 32

/-- The module parameters of alu_t_boost.c (lines 35-49). `input_boost_freqs i`
is the word read by `input_boost_freqs[i]`; the array has four elements and
the handler does not check `i` against that, so the words at the indices from
4 on are whatever lies behind the array. -/
structure Globals where
  input_boost_ms : Nat
  nr_boost_cpus : Nat
  min_input_interval : Nat
  input_boost_freqs : Nat → Nat

/-- The calls of the handler: `queue_work (touch_boost_wq, &input_boost_work)`. -/
inductive Effect where
  | queue_work
  deriving DecidableEq, Repr

/-- What the kernel answers during one run of the handler: the two values of
`ktime_to_us (ktime_get ())`, as stored in a `u64`, and the value of
`work_pending (&input_boost_work)`. -/
structure EventInput where
  now : Nat
  now_after : Nat
  work_pending : Bool
  deriving DecidableEq, Repr

/-- The function `touchboost_input_event` (alu_t_boost.c, lines 94-116).
`last_input_time` is a local that starts at 0 in every call; the assignment
to it in line 115 is the last statement and is never read. The product
`min_input_interval * USEC_PER_MSEC` of an `unsigned int` and a `long` is
formed in `unsigned long`, of 32 bits here; the subtraction and the
comparison are in `u64`. -/
def touchboost_input_event (g : Globals) (inp : EventInput) : List Effect :=
  if (List.range g.nr_boost_cpus).any (fun i => decide (g.input_boost_freqs i = 0)) then
    []
  else
    let last_input_time : Nat := 0
    let now := inp.now % 2 ^ 64
    if (now + 2 ^ 64 - last_input_time) % 2 ^ 64
        < (g.min_input_interval * USEC_PER_MSEC) % 2 ^ BITS_PER_LONG then
      []
    else if inp.work_pending = true then
      []
    else
      [.queue_work]

/-- What `do_input_boost` takes from outside the file: the constant
`MAX_CPUS = CONFIG_NR_CPUS` of the build, and the answers of `cpu_online` and
`cpufreq_quick_get` for each CPU. -/
structure BoostEnv where
  MAX_CPUS : Nat
  cpu_online : Nat → Bool
  cpufreq_quick_get : Nat → Nat

/-- The calls `do_input_boost` makes, in program order. -/
inductive WorkEffect where
  | cancel_delayed_work_sync
  | set_cpu_min_lock (cpu : Nat) (freq : Nat)
  | cpufreq_driver_target (cpu : Nat) (freq : Nat)
  | queue_delayed_work_on (ms : Nat)
  deriving DecidableEq, Repr

/-- The body of the loop of `do_input_boost` for CPU `i` (lines 75-87). -/
def boost_cpu (env : BoostEnv) (g : Globals) (i : Nat) : List WorkEffect :=
  [.set_cpu_min_lock i (g.input_boost_freqs i)]
    ++ (if env.cpu_online i = true then
          if env.cpufreq_quick_get i < g.input_boost_freqs i ∧ env.cpufreq_quick_get i > 0 then
            [.cpufreq_driver_target i (g.input_boost_freqs i)]
          else []
        else [])

/-- The function `do_input_boost` (alu_t_boost.c, lines 63-92): it clamps the
module parameter `nr_boost_cpus` into 1 .. MAX_CPUS and writes the clamped
value back (lines 69-72), boosts that many CPUs and queues the removal. -/
def do_input_boost (env : BoostEnv) (g : Globals) : Globals × List WorkEffect :=
  let g1 : Globals :=
    if g.nr_boost_cpus < 1 then { g with nr_boost_cpus := 1 }
    else if g.nr_boost_cpus > env.MAX_CPUS then { g with nr_boost_cpus := env.MAX_CPUS }
    else g
  (g1, [.cancel_delayed_work_sync]
        ++ (List.range g1.nr_boost_cpus).flatMap (boost_cpu env g1)
        ++ [.queue_delayed_work_on g1.input_boost_ms])

/-- The state of the driver between two steps: the module parameters and the
pending flag of `input_boost_work`. -/
structure Driver where
  g : Globals
  work_pending : Bool

/-- One step of a run of the driver: an input event arrives (with the two
clock readings of the handler), or the workqueue gets to run
`input_boost_work`. -/
inductive Step where
  | event (now : Nat) (now_after : Nat)
  | work_runs
  deriving DecidableEq, Repr

/-- One step of the driver and the calls the input handler makes in it. An
event runs `touchboost_input_event` with `work_pending` answering the pending
flag, and `queue_work` sets the flag; `work_runs` clears the flag and runs
`do_input_boost` when the work is pending and does nothing otherwise. -/
def driver_step (env : BoostEnv) (st : Step) (s : Driver) : Driver × List Effect :=
  match st with
  | .event now now_after =>
    let calls := touchboost_input_event s.g ⟨now, now_after, s.work_pending⟩
    (if calls = [] then s else { s with work_pending := true }, calls)
  | .work_runs =>
    if s.work_pending = true then
      ({ g := (do_input_boost env s.g).1, work_pending := false }, [])
    else (s, [])

/-- The calls of the input handler in each step of a run, in order. -/
def run_driver (env : BoostEnv) : List Step → Driver → List (List Effect)
  | [], _ => []
  | st :: rest, s => (driver_step env st s).2 :: run_driver env rest (driver_step env st s).1

/-- The driver after the steps of a run. -/
def driver_after (env : BoostEnv) : List Step → Driver → Driver
  | [], s => s
  | st :: rest, s => driver_after env rest (driver_step env st s).1

/-- A four-CPU build with every CPU online at 384000 kHz. -/
def example_env : BoostEnv :=
  { MAX_CPUS := 4, cpu_online := fun _ => true, cpufreq_quick_get := fun _ => 384000 }

/-- Module parameters as an operator can set them: `nr_boost_cpus` = 0,
`input_boost_freqs[0]` = 0, `min_input_interval` = 150. -/
def zero_params : Globals :=
  { input_boost_ms := 40, nr_boost_cpus := 0, min_input_interval := 150,
    input_boost_freqs := fun i => if i = 0 then 0 else 1026000 }

/-- The module parameters as their initialisers leave them on a four-CPU
build, with `min_input_interval` set to `interval`. -/
def params (interval : Nat) : Globals :=
  { input_boost_ms := 40, nr_boost_cpus := 4, min_input_interval := interval,
    input_boost_freqs := fun i => if i < 4 then 1026000 else 0 }

end TouchBoost

namespace MsmThermal

/-! ## Basic facts about one poll -/

theorem check_temp_read_failed (p : Platform) (inp : PollInput) (g : Globals)
    (hr : inp.tsens_get_temp g.msm_thermal_info.sensor_id = none) :
    check_temp p inp g
      = (g, [.pr_err_tsens, .queue_delayed_work TSENS_FAILED_RESCHEDULE_MS]) := by
  simp [check_temp, hr]

theorem check_temp_read_ok (p : Platform) (inp : PollInput) (g : Globals) (temp : Nat)
    (hr : inp.tsens_get_temp g.msm_thermal_info.sensor_id = some temp) :
    check_temp p inp g
      = ((update_limits p inp (switch_tstat p temp g).1).1,
         (switch_tstat p temp g).2 ++ (update_limits p inp (switch_tstat p temp g).1).2
           ++ [.queue_delayed_work (sampling_rate (update_limits p inp (switch_tstat p temp g).1).1)]) := by
  simp [check_temp, hr]

theorem update_limits_tstat (p : Platform) (inp : PollInput) (g : Globals) :
    (update_limits p inp g).1.tstat = g.tstat
      ∧ (update_limits p inp g).1.max_freq = g.max_freq
      ∧ (update_limits p inp g).1.msm_thermal_info = g.msm_thermal_info
      ∧ (update_limits p inp g).1.prev_tstat = g.tstat.toNat := by
  unfold update_limits
  split <;> simp_all

theorem switch_tstat_frame (p : Platform) (temp : Nat) (g : Globals) :
    (switch_tstat p temp g).1.msm_thermal_info = g.msm_thermal_info
      ∧ (switch_tstat p temp g).1.prev_tstat = g.prev_tstat := by
  unfold switch_tstat
  split <;> split_ifs <;> simp

theorem check_temp_frame (p : Platform) (inp : PollInput) (g : Globals) :
    (check_temp p inp g).1.msm_thermal_info = g.msm_thermal_info := by
  cases hr : inp.tsens_get_temp g.msm_thermal_info.sensor_id with
  | none => rw [check_temp_read_failed p inp g hr]
  | some temp =>
    rw [check_temp_read_ok p inp g temp hr]
    simp [(update_limits_tstat p inp _).2.2.1, (switch_tstat_frame p temp g).1]

theorem apply_limits_no_shutdown (p : Platform) (inp : PollInput) (m : Nat) (cpus : List Nat) :
    (apply_limits p inp m cpus).filter Effect.is_shutdown = [] := by
  induction cpus with
  | nil => simp [apply_limits]
  | cons i rest ih =>
    simp only [apply_limits, List.filter_append, ih]
    split <;> simp [Effect.is_shutdown]

theorem update_limits_no_shutdown (p : Platform) (inp : PollInput) (g : Globals) :
    (update_limits p inp g).2.filter Effect.is_shutdown = [] := by
  unfold update_limits
  split
  · exact apply_limits_no_shutdown p inp _ _
  · simp

/-- The state and the stored ceiling after a successful poll are those the
first switch leaves. -/
theorem check_temp_ok_state (p : Platform) (inp : PollInput) (g : Globals) (temp : Nat)
    (hr : inp.tsens_get_temp g.msm_thermal_info.sensor_id = some temp) :
    (check_temp p inp g).1.tstat = (switch_tstat p temp g).1.tstat
      ∧ (check_temp p inp g).1.max_freq = (switch_tstat p temp g).1.max_freq
      ∧ (check_temp p inp g).1.prev_tstat = (switch_tstat p temp g).1.tstat.toNat := by
  rw [check_temp_read_ok p inp g temp hr]
  exact ⟨(update_limits_tstat p inp _).1, (update_limits_tstat p inp _).2.1,
    (update_limits_tstat p inp _).2.2.2⟩

/-- The emergency actions of a successful poll are those of the first switch. -/
theorem check_temp_ok_shutdown (p : Platform) (inp : PollInput) (g : Globals) (temp : Nat)
    (hr : inp.tsens_get_temp g.msm_thermal_info.sensor_id = some temp) :
    (check_temp p inp g).2.filter Effect.is_shutdown
      = (switch_tstat p temp g).2.filter Effect.is_shutdown := by
  rw [check_temp_read_ok p inp g temp hr]
  simp only [List.filter_append, update_limits_no_shutdown]
  simp [Effect.is_shutdown]

/-! ## C1: one poll from UNTHROTTLED -/

/-- C1, as the code has it: a successful poll that starts in UNTHROTTLED with
the ceiling at MSM_CPUFREQ_NO_LIMIT goes to PHASE1 with ceiling
allowed_low_freq when temp >= allowed_low_temp (also when
temp >= allowed_high_temp), and otherwise stays UNTHROTTLED with ceiling
MSM_CPUFREQ_NO_LIMIT. -/
theorem C1_untouched_poll (p : Platform) (inp : PollInput) (g : Globals) (temp : Nat)
    (hs : g.tstat = .UNTHROTTLED) (hc : g.max_freq = p.MSM_CPUFREQ_NO_LIMIT)
    (hr : inp.tsens_get_temp g.msm_thermal_info.sensor_id = some temp) :
    ((check_temp p inp g).1.tstat, (check_temp p inp g).1.max_freq)
      = if temp ≥ g.msm_thermal_info.allowed_low_temp then
          (throttling_status.PHASE1, g.msm_thermal_info.allowed_low_freq)
        else
          (throttling_status.UNTHROTTLED, p.MSM_CPUFREQ_NO_LIMIT) := by
  rw [(check_temp_ok_state p inp g temp hr).1, (check_temp_ok_state p inp g temp hr).2.1]
  simp only [switch_tstat, hs]
  split_ifs <;> simp [hs, hc]

/-- C1 at a concrete input: the example configuration, first poll reading 80. -/
theorem C1_untouched_poll_witness :
    (boot example_platform example_cfg).tstat = .UNTHROTTLED
      ∧ (boot example_platform example_cfg).max_freq = example_platform.MSM_CPUFREQ_NO_LIMIT
      ∧ (poll_ok 80).tsens_get_temp (boot example_platform example_cfg).msm_thermal_info.sensor_id
          = some 80
      ∧ ((check_temp example_platform (poll_ok 80) (boot example_platform example_cfg)).1.tstat,
          (check_temp example_platform (poll_ok 80) (boot example_platform example_cfg)).1.max_freq)
        = (throttling_status.PHASE1, 1200) :=
  ⟨rfl, rfl, rfl,
    C1_untouched_poll example_platform (poll_ok 80) (boot example_platform example_cfg) 80
      rfl rfl rfl⟩

/-- C1 as stated fails: with allowed_low_temp = 60 and allowed_high_temp = 75,
a first poll reading 80 (at or above allowed_high_temp) leaves the driver in
PHASE1 with ceiling allowed_low_freq = 1200, not in PHASE2 with ceiling
allowed_high_freq = 800. -/
theorem C1_counterexample :
    (boot example_platform example_cfg).tstat = .UNTHROTTLED
      ∧ 80 ≥ example_cfg.allowed_high_temp
      ∧ (check_temp example_platform (poll_ok 80) (boot example_platform example_cfg)).1.tstat
          = .PHASE1
      ∧ (check_temp example_platform (poll_ok 80) (boot example_platform example_cfg)).1.max_freq
          = 1200
      ∧ ¬ ((check_temp example_platform (poll_ok 80) (boot example_platform example_cfg)).1.tstat
            = .PHASE2
          ∧ (check_temp example_platform (poll_ok 80)
              (boot example_platform example_cfg)).1.max_freq
            = example_cfg.allowed_high_freq) := by
  decide

/-! ## C2: one level per poll -/

/-- The five things one run of the first switch can do to `tstat`. -/
theorem switch_tstat_moves (p : Platform) (temp : Nat) (g : Globals) :
    (switch_tstat p temp g).1.tstat = g.tstat
      ∨ (g.tstat = .UNTHROTTLED ∧ (switch_tstat p temp g).1.tstat = .PHASE1)
      ∨ (g.tstat = .PHASE1 ∧ (switch_tstat p temp g).1.tstat = .UNTHROTTLED)
      ∨ (g.tstat = .PHASE1 ∧ (switch_tstat p temp g).1.tstat = .PHASE2)
      ∨ (g.tstat = .PHASE2 ∧ (switch_tstat p temp g).1.tstat = .PHASE1) := by
  unfold switch_tstat
  split <;> split_ifs <;> simp_all

/-- The same for a whole poll, whether the read succeeds or fails. -/
theorem check_temp_moves (p : Platform) (inp : PollInput) (g : Globals) :
    (check_temp p inp g).1.tstat = g.tstat
      ∨ (g.tstat = .UNTHROTTLED ∧ (check_temp p inp g).1.tstat = .PHASE1)
      ∨ (g.tstat = .PHASE1 ∧ (check_temp p inp g).1.tstat = .UNTHROTTLED)
      ∨ (g.tstat = .PHASE1 ∧ (check_temp p inp g).1.tstat = .PHASE2)
      ∨ (g.tstat = .PHASE2 ∧ (check_temp p inp g).1.tstat = .PHASE1) := by
  cases hr : inp.tsens_get_temp g.msm_thermal_info.sensor_id with
  | none => rw [check_temp_read_failed p inp g hr]; exact Or.inl rfl
  | some temp =>
    rw [(check_temp_ok_state p inp g temp hr).1]
    exact switch_tstat_moves p temp g

/-- C2: after any finite sequence of polls from the initial state (reads
succeeding with any temperature or failing, any configuration), one more poll
changes the level of `tstat` by at most one: it never takes UNTHROTTLED to
PHASE2 nor PHASE2 to UNTHROTTLED, and a poll that enters PHASE2 started in
PHASE1. -/
theorem C2_one_level_per_poll (p : Platform) (cfg : msm_thermal_data)
    (hist : List PollInput) (inp : PollInput) :
    ((check_temp p inp (run_polls p hist (boot p cfg))).1.tstat.toNat
        ≤ (run_polls p hist (boot p cfg)).tstat.toNat + 1
      ∧ (run_polls p hist (boot p cfg)).tstat.toNat
        ≤ (check_temp p inp (run_polls p hist (boot p cfg))).1.tstat.toNat + 1)
    ∧ ¬ ((run_polls p hist (boot p cfg)).tstat = .UNTHROTTLED
          ∧ (check_temp p inp (run_polls p hist (boot p cfg))).1.tstat = .PHASE2)
    ∧ ¬ ((run_polls p hist (boot p cfg)).tstat = .PHASE2
          ∧ (check_temp p inp (run_polls p hist (boot p cfg))).1.tstat = .UNTHROTTLED)
    ∧ ((run_polls p hist (boot p cfg)).tstat ≠ .PHASE2
          ∧ (check_temp p inp (run_polls p hist (boot p cfg))).1.tstat = .PHASE2
        → (run_polls p hist (boot p cfg)).tstat = .PHASE1) := by
  rcases check_temp_moves p inp (run_polls p hist (boot p cfg)) with h | h | h | h | h
  · rw [h]
    cases (run_polls p hist (boot p cfg)).tstat <;> simp [throttling_status.toNat]
  all_goals
    obtain ⟨h1, h2⟩ := h
    rw [h1, h2]
    simp [throttling_status.toNat]

/-! ## C3: one poll from PHASE1 -/

/-- C3, as the code has it: a successful poll that starts in PHASE1 goes to
UNTHROTTLED with ceiling MSM_CPUFREQ_NO_LIMIT when temp < allowed_low_rel_temp,
else to PHASE2 with ceiling allowed_high_freq when temp >= allowed_high_temp,
else stays in PHASE1 and leaves the stored ceiling `max_freq` as it was. A
reading equal to allowed_high_temp enters PHASE2 unless it is below
allowed_low_rel_temp, in which case the release test, which comes first,
sends it to UNTHROTTLED; a reading equal to allowed_low_rel_temp does not
release. -/
theorem C3_phase1_poll (p : Platform) (inp : PollInput) (g : Globals) (temp : Nat)
    (hs : g.tstat = .PHASE1)
    (hr : inp.tsens_get_temp g.msm_thermal_info.sensor_id = some temp) :
    ((check_temp p inp g).1.tstat, (check_temp p inp g).1.max_freq)
        = (if temp < g.msm_thermal_info.allowed_low_rel_temp then
            (throttling_status.UNTHROTTLED, p.MSM_CPUFREQ_NO_LIMIT)
          else if temp ≥ g.msm_thermal_info.allowed_high_temp then
            (throttling_status.PHASE2, g.msm_thermal_info.allowed_high_freq)
          else
            (throttling_status.PHASE1, g.max_freq))
      ∧ (temp = g.msm_thermal_info.allowed_high_temp
          → (check_temp p inp g).1.tstat
              = if temp < g.msm_thermal_info.allowed_low_rel_temp then .UNTHROTTLED
                else .PHASE2)
      ∧ (temp = g.msm_thermal_info.allowed_low_rel_temp
          → (check_temp p inp g).1.tstat ≠ .UNTHROTTLED) := by
  rw [(check_temp_ok_state p inp g temp hr).1, (check_temp_ok_state p inp g temp hr).2.1]
  simp only [switch_tstat, hs]
  refine ⟨?_, ?_, ?_⟩
  · split_ifs <;> simp [hs]
  · intro h1
    rw [if_pos (le_of_eq h1.symm)]
    split_ifs <;> rfl
  · intro h1
    simp only [h1, lt_irrefl, if_false]
    split_ifs <;> simp [hs]

/-- C3 at a concrete input: the example configuration in PHASE1 (after a
first poll reading 62), polled with 75 = allowed_high_temp, with 55 =
allowed_low_rel_temp, and with 62, which stays. -/
theorem C3_phase1_poll_witness :
    (check_temp example_platform (poll_ok 62) (boot example_platform example_cfg)).1.tstat
        = .PHASE1
      ∧ (check_temp example_platform (poll_ok 75)
          (check_temp example_platform (poll_ok 62) (boot example_platform example_cfg)).1).1.tstat
        = .PHASE2
      ∧ (check_temp example_platform (poll_ok 55)
          (check_temp example_platform (poll_ok 62) (boot example_platform example_cfg)).1).1.tstat
        ≠ .UNTHROTTLED
      ∧ ((check_temp example_platform (poll_ok 62)
            (check_temp example_platform (poll_ok 62)
              (boot example_platform example_cfg)).1).1.tstat,
          (check_temp example_platform (poll_ok 62)
            (check_temp example_platform (poll_ok 62)
              (boot example_platform example_cfg)).1).1.max_freq)
        = (.PHASE1, 1200) :=
  ⟨rfl,
    (C3_phase1_poll example_platform (poll_ok 75)
      (check_temp example_platform (poll_ok 62) (boot example_platform example_cfg)).1 75
      rfl rfl).2.1 rfl,
    (C3_phase1_poll example_platform (poll_ok 55)
      (check_temp example_platform (poll_ok 62) (boot example_platform example_cfg)).1 55
      rfl rfl).2.2 rfl,
    (C3_phase1_poll example_platform (poll_ok 62)
      (check_temp example_platform (poll_ok 62) (boot example_platform example_cfg)).1 62
      rfl rfl).1⟩

/-- C3 as stated fails. In PHASE1 after a write of 1000 to allowed_low_freq,
a poll reading 62 (neither below allowed_low_rel_temp = 55 nor at
allowed_high_temp = 75) stays in PHASE1 with the stored ceiling still 1200,
not allowed_low_freq = 1000. And with allowed_low_rel_temp = 80 above
allowed_high_temp = 75, a poll in PHASE1 reading 75 = allowed_high_temp goes to
UNTHROTTLED, not to PHASE2. -/
theorem C3_counterexample :
    (stale_phase1.tstat = .PHASE1
        ∧ stale_phase1.msm_thermal_info.allowed_low_freq = 1000
        ∧ ¬ 62 < stale_phase1.msm_thermal_info.allowed_low_rel_temp
        ∧ ¬ 62 ≥ stale_phase1.msm_thermal_info.allowed_high_temp
        ∧ (check_temp example_platform (poll_ok 62) stale_phase1).1.tstat = .PHASE1
        ∧ (check_temp example_platform (poll_ok 62) stale_phase1).1.max_freq = 1200
        ∧ (check_temp example_platform (poll_ok 62) stale_phase1).1.max_freq
            ≠ stale_phase1.msm_thermal_info.allowed_low_freq)
      ∧ ((check_temp example_platform (poll_ok 62)
            (boot example_platform inverted_cfg)).1.tstat = .PHASE1
        ∧ inverted_cfg.allowed_high_temp = 75
        ∧ (check_temp example_platform (poll_ok 75)
            (check_temp example_platform (poll_ok 62)
              (boot example_platform inverted_cfg)).1).1.tstat = .UNTHROTTLED
        ∧ (check_temp example_platform (poll_ok 75)
            (check_temp example_platform (poll_ok 62)
              (boot example_platform inverted_cfg)).1).1.tstat ≠ .PHASE2) := by
  decide

/-! ## C4: one poll from PHASE2 -/

/-- C4, as the code has it: a successful poll that starts in PHASE2 goes to
PHASE1 with ceiling allowed_low_freq and no emergency action when
temp < allowed_high_rel_temp; else, when temp >= shutdown_temp, it runs the
flush and the power-off (once each, in this order) and leaves the state at
PHASE2; else it stays in PHASE2 with no emergency action. In the two branches
that stay in PHASE2 the stored ceiling `max_freq` is left as it was. -/
theorem C4_phase2_poll (p : Platform) (inp : PollInput) (g : Globals) (temp : Nat)
    (hs : g.tstat = .PHASE2)
    (hr : inp.tsens_get_temp g.msm_thermal_info.sensor_id = some temp) :
    if temp < g.msm_thermal_info.allowed_high_rel_temp then
      (check_temp p inp g).1.tstat = .PHASE1
        ∧ (check_temp p inp g).1.max_freq = g.msm_thermal_info.allowed_low_freq
        ∧ (check_temp p inp g).2.filter Effect.is_shutdown = []
    else if temp ≥ g.msm_thermal_info.shutdown_temp then
      (check_temp p inp g).1.tstat = .PHASE2
        ∧ (check_temp p inp g).1.max_freq = g.max_freq
        ∧ (check_temp p inp g).2.filter Effect.is_shutdown
            = [.emergency_sync, .kernel_power_off]
    else
      (check_temp p inp g).1.tstat = .PHASE2
        ∧ (check_temp p inp g).1.max_freq = g.max_freq
        ∧ (check_temp p inp g).2.filter Effect.is_shutdown = [] := by
  rw [(check_temp_ok_state p inp g temp hr).1, (check_temp_ok_state p inp g temp hr).2.1,
    check_temp_ok_shutdown p inp g temp hr]
  simp only [switch_tstat, hs]
  split_ifs <;> simp [hs, Effect.is_shutdown]

/-- C4 at a concrete input: the example configuration in PHASE2 (after polls
reading 62 and 78), polled with 96 >= shutdown_temp = 95. -/
theorem C4_phase2_poll_witness :
    (run_polls example_platform [poll_ok 62, poll_ok 78]
        (boot example_platform example_cfg)).tstat = .PHASE2
      ∧ (run_polls example_platform [poll_ok 62, poll_ok 78]
          (boot example_platform example_cfg)).max_freq = 800
      ∧ ((check_temp example_platform (poll_ok 96)
            (run_polls example_platform [poll_ok 62, poll_ok 78]
              (boot example_platform example_cfg))).1.tstat = .PHASE2
        ∧ (check_temp example_platform (poll_ok 96)
            (run_polls example_platform [poll_ok 62, poll_ok 78]
              (boot example_platform example_cfg))).1.max_freq = 800
        ∧ (check_temp example_platform (poll_ok 96)
            (run_polls example_platform [poll_ok 62, poll_ok 78]
              (boot example_platform example_cfg))).2.filter Effect.is_shutdown
            = [.emergency_sync, .kernel_power_off]) :=
  ⟨rfl, rfl,
    C4_phase2_poll example_platform (poll_ok 96)
      (run_polls example_platform [poll_ok 62, poll_ok 78] (boot example_platform example_cfg))
      96 rfl rfl⟩

/-- C4 as stated fails. In PHASE2 after a write of 500 to allowed_high_freq, a
poll reading 80 (neither below allowed_high_rel_temp = 70 nor at
shutdown_temp = 95) stays in PHASE2 with the stored ceiling still 800, not
allowed_high_freq = 500. -/
theorem C4_counterexample :
    stale_phase2.tstat = .PHASE2
      ∧ stale_phase2.msm_thermal_info.allowed_high_freq = 500
      ∧ ¬ 80 < stale_phase2.msm_thermal_info.allowed_high_rel_temp
      ∧ ¬ 80 ≥ stale_phase2.msm_thermal_info.shutdown_temp
      ∧ (check_temp example_platform (poll_ok 80) stale_phase2).1.tstat = .PHASE2
      ∧ (check_temp example_platform (poll_ok 80) stale_phase2).1.max_freq = 800
      ∧ (check_temp example_platform (poll_ok 80) stale_phase2).1.max_freq
          ≠ stale_phase2.msm_thermal_info.allowed_high_freq
      ∧ (check_temp example_platform (poll_ok 80) stale_phase2).2.filter Effect.is_shutdown
          = [] := by
  decide

/-! ## C5: the worked example -/

/-- C5, as the code has it: with the thresholds of the worked example, the
readings 50, 62, 58, 78, 72, 68, 96 give the states UNTHROTTLED, PHASE1,
PHASE1, PHASE2, PHASE2, PHASE1, PHASE2, and none of these seven polls runs an
emergency action: the seventh starts in PHASE1 and only enters PHASE2. An
eighth poll reading 96 runs the flush and the power-off. -/
theorem C5_worked_example (p : Platform) (sensor_id poll_ms throttle_poll_ms : Nat)
    (sr ur : Nat → Int) :
    (poll_results p ([50, 62, 58, 78, 72, 68, 96, 96].map (poll_reading sr ur))
        (boot p (worked_cfg sensor_id poll_ms throttle_poll_ms))).map poll_summary
      = [(.UNTHROTTLED, []), (.PHASE1, []), (.PHASE1, []), (.PHASE2, []), (.PHASE2, []),
          (.PHASE1, []), (.PHASE2, []),
          (.PHASE2, [.emergency_sync, .kernel_power_off])] := by
  simp [poll_results, poll_summary, poll_reading, check_temp, switch_tstat, update_limits,
    boot, worked_cfg, throttling_status.toNat, apply_limits_no_shutdown, Effect.is_shutdown]

/-- C5 as stated fails: in the worked example the seventh poll (reading 96)
ends in PHASE2 without any emergency action. -/
theorem C5_counterexample :
    ((poll_results example_platform ([50, 62, 58, 78, 72, 68, 96].map poll_ok)
        (boot example_platform example_cfg)).map poll_summary)[6]?
      = some (.PHASE2, [])
    ∧ ((poll_results example_platform ([50, 62, 58, 78, 72, 68, 96].map poll_ok)
          (boot example_platform example_cfg))[6]?).map Prod.snd
      = some [.msm_cpufreq_set_freq_limits 0 4294967295 800, .cpufreq_update_policy 0,
          .msm_cpufreq_set_freq_limits 1 4294967295 800, .cpufreq_update_policy 1,
          .msm_cpufreq_set_freq_limits 2 4294967295 800, .cpufreq_update_policy 2,
          .msm_cpufreq_set_freq_limits 3 4294967295 800, .cpufreq_update_policy 3,
          .queue_delayed_work 250] := by
  decide

/-! ## C6: a failed sensor read -/

/-- C6: a poll whose sensor read fails leaves all globals (tstat, prev_tstat,
max_freq, the configuration) as they were, and its only calls are the error
message and one re-arm with the delay TSENS_FAILED_RESCHEDULE_MS = 100 ms: no
call to the frequency limiter, no emergency action, whatever poll_ms,
throttle_poll_ms and the state are. -/
theorem C6_failed_read (p : Platform) (inp : PollInput) (g : Globals)
    (hr : inp.tsens_get_temp g.msm_thermal_info.sensor_id = none) :
    (check_temp p inp g).1 = g
      ∧ (check_temp p inp g).2 = [.pr_err_tsens, .queue_delayed_work 100]
      ∧ (check_temp p inp g).2.filter Effect.is_limiter = []
      ∧ (check_temp p inp g).2.filter Effect.is_shutdown = []
      ∧ (check_temp p inp g).2.filter Effect.is_rearm = [.queue_delayed_work 100] := by
  simp [check_temp, hr, TSENS_FAILED_RESCHEDULE_MS, Effect.is_limiter, Effect.is_shutdown,
    Effect.is_rearm]

/-- C6 at a concrete input: the example configuration in PHASE2 (after polls
reading 62 and 78), where the state-dependent delay would be 250 ms. -/
theorem C6_failed_read_witness :
    poll_failed.tsens_get_temp
        (run_polls example_platform [poll_ok 62, poll_ok 78]
          (boot example_platform example_cfg)).msm_thermal_info.sensor_id = none
      ∧ (run_polls example_platform [poll_ok 62, poll_ok 78]
          (boot example_platform example_cfg)).tstat = .PHASE2
      ∧ (check_temp example_platform poll_failed
          (run_polls example_platform [poll_ok 62, poll_ok 78]
            (boot example_platform example_cfg))).2
        = [.pr_err_tsens, .queue_delayed_work 100] :=
  ⟨rfl, rfl,
    (C6_failed_read example_platform poll_failed
      (run_polls example_platform [poll_ok 62, poll_ok 78] (boot example_platform example_cfg))
      rfl).2.1⟩

/-! ## C7: the stored ceiling is a function of the state -/

/-- The first switch keeps the stored ceiling equal to the ceiling of the
state. -/
theorem switch_tstat_ceiling (p : Platform) (temp : Nat) (g : Globals)
    (h : g.max_freq = state_ceiling p g.msm_thermal_info g.tstat) :
    (switch_tstat p temp g).1.max_freq
      = state_ceiling p g.msm_thermal_info (switch_tstat p temp g).1.tstat := by
  unfold switch_tstat
  split <;> split_ifs <;> simp_all [state_ceiling]

/-- One poll keeps the stored ceiling equal to the ceiling of the state. -/
theorem check_temp_ceiling (p : Platform) (inp : PollInput) (g : Globals)
    (h : g.max_freq = state_ceiling p g.msm_thermal_info g.tstat) :
    (check_temp p inp g).1.max_freq
      = state_ceiling p g.msm_thermal_info (check_temp p inp g).1.tstat := by
  cases hr : inp.tsens_get_temp g.msm_thermal_info.sensor_id with
  | none => rw [check_temp_read_failed p inp g hr]; exact h
  | some temp =>
    rw [(check_temp_ok_state p inp g temp hr).1, (check_temp_ok_state p inp g temp hr).2.1]
    exact switch_tstat_ceiling p temp g h

/-- One poll keeps `prev_tstat` equal to `tstat`. -/
theorem check_temp_prev (p : Platform) (inp : PollInput) (g : Globals)
    (h : g.prev_tstat = g.tstat.toNat) :
    (check_temp p inp g).1.prev_tstat = (check_temp p inp g).1.tstat.toNat := by
  cases hr : inp.tsens_get_temp g.msm_thermal_info.sensor_id with
  | none => rw [check_temp_read_failed p inp g hr]; exact h
  | some temp =>
    rw [(check_temp_ok_state p inp g temp hr).1, (check_temp_ok_state p inp g temp hr).2.2]

/-- What every sequence of polls preserves: the configuration, the agreement
of `prev_tstat` with `tstat`, and the agreement of `max_freq` with the state. -/
theorem run_polls_preserves (p : Platform) (hist : List PollInput) (g : Globals)
    (hprev : g.prev_tstat = g.tstat.toNat)
    (hceil : g.max_freq = state_ceiling p g.msm_thermal_info g.tstat) :
    (run_polls p hist g).msm_thermal_info = g.msm_thermal_info
      ∧ (run_polls p hist g).prev_tstat = (run_polls p hist g).tstat.toNat
      ∧ (run_polls p hist g).max_freq
          = state_ceiling p g.msm_thermal_info (run_polls p hist g).tstat := by
  induction hist generalizing g with
  | nil => exact ⟨rfl, hprev, hceil⟩
  | cons inp rest ih =>
    have hf := check_temp_frame p inp g
    have hstep := ih (check_temp p inp g).1 (check_temp_prev p inp g hprev)
      (by rw [hf]; exact check_temp_ceiling p inp g hceil)
    simp only [run_polls, List.foldl_cons] at hstep ⊢
    rw [hf] at hstep
    exact hstep

/-- The invariants of the states reached from the initial state. -/
theorem reached_invariants (p : Platform) (cfg : msm_thermal_data) (hist : List PollInput) :
    (run_polls p hist (boot p cfg)).msm_thermal_info = cfg
      ∧ (run_polls p hist (boot p cfg)).prev_tstat = (run_polls p hist (boot p cfg)).tstat.toNat
      ∧ (run_polls p hist (boot p cfg)).max_freq
          = state_ceiling p cfg (run_polls p hist (boot p cfg)).tstat :=
  run_polls_preserves p hist (boot p cfg) rfl rfl

/-- C7: for a fixed configuration, after any finite sequence of polls
(successful or failed) from the initial state, the stored ceiling `max_freq`
is MSM_CPUFREQ_NO_LIMIT in UNTHROTTLED, allowed_low_freq in PHASE1,
allowed_high_freq in PHASE2; so two sequences that end in the same state end
with the same stored ceiling. -/
theorem C7_ceiling_of_state (p : Platform) (cfg : msm_thermal_data)
    (hist hist2 : List PollInput) :
    (run_polls p hist (boot p cfg)).max_freq
        = (match (run_polls p hist (boot p cfg)).tstat with
          | .UNTHROTTLED => p.MSM_CPUFREQ_NO_LIMIT
          | .PHASE1 => cfg.allowed_low_freq
          | .PHASE2 => cfg.allowed_high_freq)
      ∧ ((run_polls p hist (boot p cfg)).tstat = (run_polls p hist2 (boot p cfg)).tstat
          → (run_polls p hist (boot p cfg)).max_freq
              = (run_polls p hist2 (boot p cfg)).max_freq) := by
  have h1 := (reached_invariants p cfg hist).2.2
  have h2 := (reached_invariants p cfg hist2).2.2
  refine ⟨?_, ?_⟩
  · rw [h1]
    cases (run_polls p hist (boot p cfg)).tstat <;> rfl
  · intro h
    rw [h1, h2, h]

/-! ## The calls of a successful poll -/

theorem toNat_inj (a b : throttling_status) : a.toNat = b.toNat ↔ a = b := by
  cases a <;> cases b <;> simp [throttling_status.toNat]

theorem switch_tstat_effects (p : Platform) (temp : Nat) (g : Globals) :
    (switch_tstat p temp g).2.filter Effect.is_limiter = []
      ∧ (switch_tstat p temp g).2.filter Effect.is_rearm = []
      ∧ (switch_tstat p temp g).2.filter Effect.is_set_limit = [] := by
  unfold switch_tstat
  split <;> split_ifs <;> simp [Effect.is_limiter, Effect.is_rearm, Effect.is_set_limit]

theorem apply_limits_limiter (p : Platform) (inp : PollInput) (m : Nat) (cpus : List Nat) :
    (apply_limits p inp m cpus).filter Effect.is_limiter
      = cpus.flatMap fun i =>
          [.msm_cpufreq_set_freq_limits i p.MSM_CPUFREQ_NO_LIMIT m, .cpufreq_update_policy i] := by
  induction cpus with
  | nil => simp [apply_limits]
  | cons i rest ih =>
    simp only [apply_limits, List.filter_append, ih, List.flatMap_cons]
    split <;> simp [Effect.is_limiter]

theorem apply_limits_set_limit (p : Platform) (inp : PollInput) (m : Nat) (cpus : List Nat) :
    (apply_limits p inp m cpus).filter Effect.is_set_limit
      = cpus.map fun i => .msm_cpufreq_set_freq_limits i p.MSM_CPUFREQ_NO_LIMIT m := by
  induction cpus with
  | nil => simp [apply_limits]
  | cons i rest ih =>
    simp only [apply_limits, List.filter_append, ih, List.map_cons]
    split <;> simp [Effect.is_set_limit]

theorem apply_limits_rearm (p : Platform) (inp : PollInput) (m : Nat) (cpus : List Nat) :
    (apply_limits p inp m cpus).filter Effect.is_rearm = [] := by
  induction cpus with
  | nil => simp [apply_limits]
  | cons i rest ih =>
    simp only [apply_limits, List.filter_append, ih]
    split <;> simp [Effect.is_rearm]

/-- The limiter calls of a successful poll: one set-limit and one
policy-update per CPU when the state left by the switch differs from
`prev_tstat`, none otherwise. -/
theorem check_temp_ok_limiter (p : Platform) (inp : PollInput) (g : Globals) (temp : Nat)
    (hr : inp.tsens_get_temp g.msm_thermal_info.sensor_id = some temp) :
    (check_temp p inp g).2.filter Effect.is_limiter
      = if (switch_tstat p temp g).1.tstat.toNat ≠ g.prev_tstat then
          limiter_calls p (switch_tstat p temp g).1.max_freq
        else [] := by
  rw [check_temp_read_ok p inp g temp hr]
  simp only [List.filter_append, (switch_tstat_effects p temp g).1, List.nil_append]
  unfold update_limits
  rw [(switch_tstat_frame p temp g).2]
  split_ifs <;> simp [apply_limits_limiter, limiter_calls, Effect.is_limiter]

/-- The set-limit calls of a successful poll. -/
theorem check_temp_ok_set_limit (p : Platform) (inp : PollInput) (g : Globals) (temp : Nat)
    (hr : inp.tsens_get_temp g.msm_thermal_info.sensor_id = some temp) :
    (check_temp p inp g).2.filter Effect.is_set_limit
      = if (switch_tstat p temp g).1.tstat.toNat ≠ g.prev_tstat then
          p.possible_cpus.map fun i =>
            .msm_cpufreq_set_freq_limits i p.MSM_CPUFREQ_NO_LIMIT (switch_tstat p temp g).1.max_freq
        else [] := by
  rw [check_temp_read_ok p inp g temp hr]
  simp only [List.filter_append, (switch_tstat_effects p temp g).2.2, List.nil_append]
  unfold update_limits
  rw [(switch_tstat_frame p temp g).2]
  split_ifs <;> simp [apply_limits_set_limit, Effect.is_set_limit]

/-- The re-arm calls of a successful poll: exactly one, the last call of the
poll, with the delay chosen by the second switch. -/
theorem check_temp_ok_rearm (p : Platform) (inp : PollInput) (g : Globals) (temp : Nat)
    (hr : inp.tsens_get_temp g.msm_thermal_info.sensor_id = some temp) :
    (check_temp p inp g).2.filter Effect.is_rearm
        = [.queue_delayed_work (sampling_rate (check_temp p inp g).1)]
      ∧ (check_temp p inp g).2.getLast?
        = some (.queue_delayed_work (sampling_rate (check_temp p inp g).1)) := by
  rw [check_temp_read_ok p inp g temp hr]
  refine ⟨?_, by simp⟩
  simp only [List.filter_append, (switch_tstat_effects p temp g).2.1, List.nil_append]
  unfold update_limits
  split_ifs <;> simp [apply_limits_rearm, Effect.is_rearm]

theorem limiter_calls_ne_nil (p : Platform) (m : Nat) (h : p.possible_cpus ≠ []) :
    limiter_calls p m ≠ [] := by
  unfold limiter_calls
  cases hc : p.possible_cpus with
  | nil => exact absurd hc h
  | cons i rest => simp

/-! ## C8: the limiter runs exactly when the state changed -/

/-- C8: for a successful poll that follows any sequence of polls from the
initial state, the limiter calls of the poll are one set-limit
(min = MSM_CPUFREQ_NO_LIMIT, max = the ceiling of the new state) and one
policy-update per CPU when the new state differs from the old one, and none
when the state is unchanged; afterwards `prev_tstat` equals `tstat`. With at
least one CPU, a limiter call occurs if and only if the state changed. -/
theorem C8_limiter_iff_change (p : Platform) (cfg : msm_thermal_data) (hist : List PollInput)
    (inp : PollInput) (temp : Nat) (hr : inp.tsens_get_temp cfg.sensor_id = some temp) :
    (check_temp p inp (run_polls p hist (boot p cfg))).2.filter Effect.is_limiter
        = (if (check_temp p inp (run_polls p hist (boot p cfg))).1.tstat
              ≠ (run_polls p hist (boot p cfg)).tstat then
            p.possible_cpus.flatMap fun i =>
              [.msm_cpufreq_set_freq_limits i p.MSM_CPUFREQ_NO_LIMIT
                  (state_ceiling p cfg (check_temp p inp (run_polls p hist (boot p cfg))).1.tstat),
                .cpufreq_update_policy i]
          else [])
      ∧ (check_temp p inp (run_polls p hist (boot p cfg))).1.prev_tstat
          = (check_temp p inp (run_polls p hist (boot p cfg))).1.tstat.toNat
      ∧ (p.possible_cpus ≠ [] →
          ((∃ e ∈ (check_temp p inp (run_polls p hist (boot p cfg))).2, e.is_limiter = true)
            ↔ (check_temp p inp (run_polls p hist (boot p cfg))).1.tstat
                ≠ (run_polls p hist (boot p cfg)).tstat)) := by
  obtain ⟨hcfg, hprev, hceil⟩ := reached_invariants p cfg hist
  generalize run_polls p hist (boot p cfg) = g at hcfg hprev hceil ⊢
  have hr2 : inp.tsens_get_temp g.msm_thermal_info.sensor_id = some temp := by rw [hcfg]; exact hr
  have hst := check_temp_ok_state p inp g temp hr2
  have hlim := check_temp_ok_limiter p inp g temp hr2
  have hc := switch_tstat_ceiling p temp g (by rw [hcfg]; exact hceil)
  rw [hcfg] at hc
  rw [← hst.1, ← hst.2.1, hprev] at hlim
  simp only [ne_eq, toNat_inj] at hlim
  rw [← hst.1, ← hst.2.1] at hc
  have hfil : (check_temp p inp g).2.filter Effect.is_limiter
      = if (check_temp p inp g).1.tstat ≠ g.tstat then
          limiter_calls p (state_ceiling p cfg (check_temp p inp g).1.tstat)
        else [] := by
    rw [hlim, hc]
  refine ⟨hfil, ?_, ?_⟩
  · rw [hst.1, hst.2.2]
  · intro hne
    have hex : (∃ e ∈ (check_temp p inp g).2, e.is_limiter = true)
        ↔ (check_temp p inp g).2.filter Effect.is_limiter ≠ [] := by
      constructor
      · rintro ⟨e, he, hl⟩ hnil
        exact List.filter_eq_nil_iff.mp hnil e he hl
      · intro h
        by_contra hcon
        push_neg at hcon
        exact h (List.filter_eq_nil_iff.mpr fun a ha => hcon a ha)
    rw [hex, hfil]
    split_ifs with h
    · simp [h, limiter_calls_ne_nil p _ hne]
    · simp [h]

/-- C8 at a concrete input: the example configuration after a poll reading
50 (UNTHROTTLED); a poll reading 62 changes the state and calls the limiter
with ceiling 1200 on the four CPUs. -/
theorem C8_limiter_iff_change_witness :
    (poll_ok 62).tsens_get_temp example_cfg.sensor_id = some 62
      ∧ (check_temp example_platform (poll_ok 62)
          (run_polls example_platform [poll_ok 50] (boot example_platform example_cfg))).2.filter
            Effect.is_limiter
        = [.msm_cpufreq_set_freq_limits 0 4294967295 1200, .cpufreq_update_policy 0,
            .msm_cpufreq_set_freq_limits 1 4294967295 1200, .cpufreq_update_policy 1,
            .msm_cpufreq_set_freq_limits 2 4294967295 1200, .cpufreq_update_policy 2,
            .msm_cpufreq_set_freq_limits 3 4294967295 1200, .cpufreq_update_policy 3] :=
  ⟨rfl,
    (C8_limiter_iff_change example_platform example_cfg [poll_ok 50] (poll_ok 62) 62 rfl).1⟩

/-! ## C9: every CPU is served, whatever fails -/

/-- C9: when a successful poll (after any sequence of polls from the initial
state) changes the state, then whatever the per-CPU calls return, the limiter
calls of the poll are, for each CPU in CPU order, exactly one set-limit with
the ceiling of the new state followed by exactly one policy-update; the new
state is persisted in `prev_tstat`, and the poll ends with its one re-arm. -/
theorem C9_every_cpu_once (p : Platform) (cfg : msm_thermal_data) (hist : List PollInput)
    (inp : PollInput) (temp : Nat) (hr : inp.tsens_get_temp cfg.sensor_id = some temp)
    (hchg : (check_temp p inp (run_polls p hist (boot p cfg))).1.tstat
      ≠ (run_polls p hist (boot p cfg)).tstat) :
    (check_temp p inp (run_polls p hist (boot p cfg))).2.filter Effect.is_limiter
        = (p.possible_cpus.flatMap fun i =>
            [.msm_cpufreq_set_freq_limits i p.MSM_CPUFREQ_NO_LIMIT
                (state_ceiling p cfg (check_temp p inp (run_polls p hist (boot p cfg))).1.tstat),
              .cpufreq_update_policy i])
      ∧ (check_temp p inp (run_polls p hist (boot p cfg))).2.filter Effect.is_set_limit
        = (p.possible_cpus.map fun i =>
            .msm_cpufreq_set_freq_limits i p.MSM_CPUFREQ_NO_LIMIT
              (state_ceiling p cfg (check_temp p inp (run_polls p hist (boot p cfg))).1.tstat))
      ∧ (check_temp p inp (run_polls p hist (boot p cfg))).1.prev_tstat
          = (check_temp p inp (run_polls p hist (boot p cfg))).1.tstat.toNat
      ∧ (check_temp p inp (run_polls p hist (boot p cfg))).2.filter Effect.is_rearm
          = [.queue_delayed_work
              (sampling_rate (check_temp p inp (run_polls p hist (boot p cfg))).1)]
      ∧ (check_temp p inp (run_polls p hist (boot p cfg))).2.getLast?
          = some (.queue_delayed_work
              (sampling_rate (check_temp p inp (run_polls p hist (boot p cfg))).1)) := by
  obtain ⟨hcfg, hprev, hceil⟩ := reached_invariants p cfg hist
  generalize run_polls p hist (boot p cfg) = g at hcfg hprev hceil hchg ⊢
  have hr2 : inp.tsens_get_temp g.msm_thermal_info.sensor_id = some temp := by rw [hcfg]; exact hr
  have hst := check_temp_ok_state p inp g temp hr2
  have hlim := check_temp_ok_limiter p inp g temp hr2
  have hset := check_temp_ok_set_limit p inp g temp hr2
  have hc := switch_tstat_ceiling p temp g (by rw [hcfg]; exact hceil)
  rw [hcfg] at hc
  rw [← hst.1, ← hst.2.1, hprev] at hlim hset
  simp only [ne_eq, toNat_inj] at hlim hset
  rw [← hst.1, ← hst.2.1] at hc
  rw [if_pos hchg, hc] at hlim hset
  refine ⟨hlim, hset, ?_, check_temp_ok_rearm p inp g temp hr2⟩
  rw [hst.1, hst.2.2]

/-- C9 at a concrete input: four CPUs, first poll reading 62, both per-CPU
calls failing on CPU 2. The four set-limit calls are all made; the only trace
of the failure is the debug message after the policy update of CPU 2. -/
theorem C9_every_cpu_once_witness :
    poll_cpu2_fails.tsens_get_temp example_cfg.sensor_id = some 62
      ∧ (check_temp example_platform poll_cpu2_fails
            (run_polls example_platform [] (boot example_platform example_cfg))).1.tstat
          ≠ (run_polls example_platform [] (boot example_platform example_cfg)).tstat
      ∧ (check_temp example_platform poll_cpu2_fails
            (run_polls example_platform [] (boot example_platform example_cfg))).2.filter
              Effect.is_set_limit
          = [.msm_cpufreq_set_freq_limits 0 4294967295 1200,
              .msm_cpufreq_set_freq_limits 1 4294967295 1200,
              .msm_cpufreq_set_freq_limits 2 4294967295 1200,
              .msm_cpufreq_set_freq_limits 3 4294967295 1200]
      ∧ (check_temp example_platform poll_cpu2_fails
            (run_polls example_platform [] (boot example_platform example_cfg))).2
          = [.msm_cpufreq_set_freq_limits 0 4294967295 1200, .cpufreq_update_policy 0,
              .msm_cpufreq_set_freq_limits 1 4294967295 1200, .cpufreq_update_policy 1,
              .msm_cpufreq_set_freq_limits 2 4294967295 1200, .cpufreq_update_policy 2,
              .pr_debug_policy_failed 2,
              .msm_cpufreq_set_freq_limits 3 4294967295 1200, .cpufreq_update_policy 3,
              .queue_delayed_work 250] :=
  ⟨rfl, by decide,
    (C9_every_cpu_once example_platform example_cfg [] poll_cpu2_fails 62 rfl (by decide)).2.1,
    by decide⟩

/-! ## C10: the delay of the re-arm -/

/-- C10: a successful poll that runs no emergency action re-arms exactly
once, with delay poll_ms when the state after the transition is UNTHROTTLED
and throttle_poll_ms otherwise. -/
theorem C10_rearm_delay (p : Platform) (inp : PollInput) (g : Globals) (temp : Nat)
    (hr : inp.tsens_get_temp g.msm_thermal_info.sensor_id = some temp)
    (_hns : (check_temp p inp g).2.filter Effect.is_shutdown = []) :
    (check_temp p inp g).2.filter Effect.is_rearm
      = [.queue_delayed_work
          (if (check_temp p inp g).1.tstat = .UNTHROTTLED then g.msm_thermal_info.poll_ms
            else g.msm_thermal_info.throttle_poll_ms)] := by
  rw [(check_temp_ok_rearm p inp g temp hr).1]
  unfold sampling_rate
  rw [check_temp_frame p inp g]
  cases (check_temp p inp g).1.tstat <;> simp

/-- C10 at a concrete input: the example configuration (poll_ms = 1000,
throttle_poll_ms = 250), first poll reading 62, which enters PHASE1. -/
theorem C10_rearm_delay_witness :
    (poll_ok 62).tsens_get_temp (boot example_platform example_cfg).msm_thermal_info.sensor_id
        = some 62
      ∧ (check_temp example_platform (poll_ok 62)
          (boot example_platform example_cfg)).2.filter Effect.is_shutdown = []
      ∧ (check_temp example_platform (poll_ok 62)
          (boot example_platform example_cfg)).2.filter Effect.is_rearm
        = [.queue_delayed_work 250] :=
  ⟨rfl, rfl,
    C10_rearm_delay example_platform (poll_ok 62) (boot example_platform example_cfg) 62
      rfl rfl⟩

/-! ## C11: when the emergency actions run -/

/-- C11: in a poll whose read fails no emergency action runs. In a poll whose
read succeeds with `temp`, the emergency actions run if and only if the stored
state is PHASE2, temp >= allowed_high_rel_temp and temp >= shutdown_temp; in
that case the poll starts with the lock, one flush, one power-off right after
it and the unlock, and every limiter call and the re-arm of the poll come
after these; in every other poll neither action occurs. -/
theorem C11_emergency_actions (p : Platform) (inp : PollInput) (g : Globals) :
    (inp.tsens_get_temp g.msm_thermal_info.sensor_id = none →
        (check_temp p inp g).2.filter Effect.is_shutdown = [])
      ∧ ∀ temp, inp.tsens_get_temp g.msm_thermal_info.sensor_id = some temp →
          if g.tstat = .PHASE2 ∧ temp ≥ g.msm_thermal_info.allowed_high_rel_temp
              ∧ temp ≥ g.msm_thermal_info.shutdown_temp then
            (check_temp p inp g).2.filter Effect.is_shutdown
                = [.emergency_sync, .kernel_power_off]
              ∧ ∃ rest, (check_temp p inp g).2
                    = [.spin_lock, .emergency_sync, .kernel_power_off, .spin_unlock] ++ rest
                  ∧ rest.filter Effect.is_shutdown = []
                  ∧ rest.filter Effect.is_limiter
                      = (check_temp p inp g).2.filter Effect.is_limiter
                  ∧ rest.filter Effect.is_rearm
                      = (check_temp p inp g).2.filter Effect.is_rearm
          else
            (check_temp p inp g).2.filter Effect.is_shutdown = [] := by
  refine ⟨fun hr => ?_, fun temp hr => ?_⟩
  · rw [check_temp_read_failed p inp g hr]
    simp [Effect.is_shutdown]
  · split_ifs with h
    · obtain ⟨hs, h1, h2⟩ := h
      have hsw : switch_tstat p temp g
          = (g, [.spin_lock, .emergency_sync, .kernel_power_off, .spin_unlock]) := by
        simp only [switch_tstat, hs]
        rw [if_neg (not_lt.mpr h1), if_pos h2]
      refine ⟨?_, ?_⟩
      · rw [check_temp_ok_shutdown p inp g temp hr, hsw]
        simp [Effect.is_shutdown]
      · rw [check_temp_read_ok p inp g temp hr, hsw]
        refine ⟨(update_limits p inp g).2
          ++ [.queue_delayed_work (sampling_rate (update_limits p inp g).1)], ?_, ?_, ?_, ?_⟩
        · simp
        · simp [update_limits_no_shutdown, Effect.is_shutdown]
        · simp [Effect.is_limiter]
        · simp [Effect.is_rearm]
    · rw [check_temp_ok_shutdown p inp g temp hr]
      unfold switch_tstat
      split <;> split_ifs <;> simp_all [Effect.is_shutdown]

/-- C11 at a concrete input: the example configuration in PHASE2 (after polls
reading 62 and 78), polled with 96: the whole trace of the poll. -/
theorem C11_emergency_actions_witness :
    (check_temp example_platform (poll_ok 96)
        (run_polls example_platform [poll_ok 62, poll_ok 78]
          (boot example_platform example_cfg))).2.filter Effect.is_shutdown
      = [.emergency_sync, .kernel_power_off]
    ∧ (check_temp example_platform (poll_ok 96)
        (run_polls example_platform [poll_ok 62, poll_ok 78]
          (boot example_platform example_cfg))).2
      = [.spin_lock, .emergency_sync, .kernel_power_off, .spin_unlock,
          .queue_delayed_work 250] :=
  ⟨((C11_emergency_actions example_platform (poll_ok 96)
      (run_polls example_platform [poll_ok 62, poll_ok 78]
        (boot example_platform example_cfg))).2 96 rfl).1,
    by decide⟩

/-! ## C12: a device node with a missing property -/

theorem of_property_read_u32_none (node : String → Option Nat) (key : String)
    (h : node key = none) : of_property_read_u32 node key = .error key := by
  simp [of_property_read_u32, h]

theorem of_property_read_u32_some (node : String → Option Nat) (key : String) (v : Nat)
    (h : node key = some v) : of_property_read_u32 node key = .ok v := by
  simp [of_property_read_u32, h]

/-- Either all ten properties can be read, or the probe fails: it returns
-EINVAL, leaves the globals alone and only logs. -/
theorem probe_reads_all_or_fails (env : InitEnv) (node : String → Option Nat) (g : Globals) :
    (∀ key ∈ required_keys, node key ≠ none)
      ∨ ((msm_thermal_dev_probe env node g).1 = -EINVAL
          ∧ (msm_thermal_dev_probe env node g).2.1 = g
          ∧ only_probe_logs (msm_thermal_dev_probe env node g).2.2) := by
  unfold msm_thermal_dev_probe probe_read_rest only_probe_logs
  cases h0 : node "qcom,sensor-id" with
  | none =>
    right
    simp only [of_property_read_u32_none node _ h0]
    simp
  | some v0 =>
  cases h1 : node "qcom,poll-ms" with
  | none =>
    right
    simp only [of_property_read_u32_none node _ h1, of_property_read_u32_some node _ _ h0]
    split_ifs <;> simp [bind, Except.bind]
  | some v1 =>
  cases h2 : node "qcom,throttle_poll-ms" with
  | none =>
    right
    simp only [of_property_read_u32_none node _ h2, of_property_read_u32_some node _ _ h0, of_property_read_u32_some node _ _ h1]
    split_ifs <;> simp [bind, Except.bind]
  | some v2 =>
  cases h3 : node "qcom,shutdown_temp" with
  | none =>
    right
    simp only [of_property_read_u32_none node _ h3, of_property_read_u32_some node _ _ h0, of_property_read_u32_some node _ _ h1, of_property_read_u32_some node _ _ h2]
    split_ifs <;> simp [bind, Except.bind]
  | some v3 =>
  cases h4 : node "qcom,allowed_high_temp" with
  | none =>
    right
    simp only [of_property_read_u32_none node _ h4, of_property_read_u32_some node _ _ h0, of_property_read_u32_some node _ _ h1, of_property_read_u32_some node _ _ h2, of_property_read_u32_some node _ _ h3]
    split_ifs <;> simp [bind, Except.bind]
  | some v4 =>
  cases h5 : node "qcom,allowed_high_rel_temp" with
  | none =>
    right
    simp only [of_property_read_u32_none node _ h5, of_property_read_u32_some node _ _ h0, of_property_read_u32_some node _ _ h1, of_property_read_u32_some node _ _ h2, of_property_read_u32_some node _ _ h3, of_property_read_u32_some node _ _ h4]
    split_ifs <;> simp [bind, Except.bind]
  | some v5 =>
  cases h6 : node "qcom,allowed_high_freq" with
  | none =>
    right
    simp only [of_property_read_u32_none node _ h6, of_property_read_u32_some node _ _ h0, of_property_read_u32_some node _ _ h1, of_property_read_u32_some node _ _ h2, of_property_read_u32_some node _ _ h3, of_property_read_u32_some node _ _ h4, of_property_read_u32_some node _ _ h5]
    split_ifs <;> simp [bind, Except.bind]
  | some v6 =>
  cases h7 : node "qcom,allowed_low_temp" with
  | none =>
    right
    simp only [of_property_read_u32_none node _ h7, of_property_read_u32_some node _ _ h0, of_property_read_u32_some node _ _ h1, of_property_read_u32_some node _ _ h2, of_property_read_u32_some node _ _ h3, of_property_read_u32_some node _ _ h4, of_property_read_u32_some node _ _ h5, of_property_read_u32_some node _ _ h6]
    split_ifs <;> simp [bind, Except.bind]
  | some v7 =>
  cases h8 : node "qcom,allowed_low_rel_temp" with
  | none =>
    right
    simp only [of_property_read_u32_none node _ h8, of_property_read_u32_some node _ _ h0, of_property_read_u32_some node _ _ h1, of_property_read_u32_some node _ _ h2, of_property_read_u32_some node _ _ h3, of_property_read_u32_some node _ _ h4, of_property_read_u32_some node _ _ h5, of_property_read_u32_some node _ _ h6, of_property_read_u32_some node _ _ h7]
    split_ifs <;> simp [bind, Except.bind]
  | some v8 =>
  cases h9 : node "qcom,allowed_low_freq" with
  | none =>
    right
    simp only [of_property_read_u32_none node _ h9, of_property_read_u32_some node _ _ h0, of_property_read_u32_some node _ _ h1, of_property_read_u32_some node _ _ h2, of_property_read_u32_some node _ _ h3, of_property_read_u32_some node _ _ h4, of_property_read_u32_some node _ _ h5, of_property_read_u32_some node _ _ h6, of_property_read_u32_some node _ _ h7, of_property_read_u32_some node _ _ h8]
    split_ifs <;> simp [bind, Except.bind]
  | some v9 =>
  left
  intro key hk
  simp only [required_keys, List.mem_cons, List.mem_singleton, List.not_mem_nil, or_false] at hk
  rcases hk with rfl | rfl | rfl | rfl | rfl | rfl | rfl | rfl | rfl | rfl <;> simp [*]

/-- C12: when at least one of the ten required properties of the device node
cannot be read, `msm_thermal_dev_probe` returns -EINVAL, leaves every global
(the configuration included) as it was, and its only calls are log messages:
`msm_thermal_init` is not called, nothing is copied, no poll is queued. -/
theorem C12_probe_missing_property (env : InitEnv) (node : String → Option Nat) (g : Globals)
    (h : ∃ key ∈ required_keys, node key = none) :
    (msm_thermal_dev_probe env node g).1 = -EINVAL
      ∧ (msm_thermal_dev_probe env node g).2.1 = g
      ∧ only_probe_logs (msm_thermal_dev_probe env node g).2.2
      ∧ (∀ d, InitEffect.msm_thermal_init d ∉ (msm_thermal_dev_probe env node g).2.2)
      ∧ (∀ d, InitEffect.memcpy_msm_thermal_info d ∉ (msm_thermal_dev_probe env node g).2.2)
      ∧ (∀ ms, InitEffect.queue_delayed_work ms ∉ (msm_thermal_dev_probe env node g).2.2) := by
  obtain ⟨key, hk, hn⟩ := h
  rcases probe_reads_all_or_fails env node g with hall | ⟨h1, h2, h3⟩
  · exact absurd hn (hall key hk)
  · refine ⟨h1, h2, h3, ?_, ?_, ?_⟩ <;>
    · intro d hd
      rcases h3 _ hd with h | ⟨k, h⟩ <;> cases h

/-- C12 at a concrete input: the example node without `qcom,allowed_low_temp`,
probed in the initial state. The only call is the message of the `fail`
label. -/
theorem C12_probe_missing_property_witness :
    (∃ key ∈ required_keys, example_node_missing key = none)
      ∧ msm_thermal_dev_probe example_env example_node_missing
          (boot example_platform (worked_cfg 3 5 7))
        = (-22, boot example_platform (worked_cfg 3 5 7),
            [.pr_err_probe_failed "qcom,allowed_low_temp"]) :=
  ⟨⟨"qcom,allowed_low_temp", by decide, by decide⟩,
    Prod.ext
      (C12_probe_missing_property example_env example_node_missing
        (boot example_platform (worked_cfg 3 5 7))
        ⟨"qcom,allowed_low_temp", by decide, by decide⟩).1
      (Prod.ext
        (C12_probe_missing_property example_env example_node_missing
          (boot example_platform (worked_cfg 3 5 7))
          ⟨"qcom,allowed_low_temp", by decide, by decide⟩).2.1
        (by decide))⟩

/-! ## C13: writes to the sysfs files -/

/-- C13: for each of the nine tunables, a write whose buffer `sscanf` parses
as `v` returns `count`, sets that field to `v` and leaves every other tunable,
the sensor id and the throttle state (tstat, prev_tstat, max_freq) as they
were, with no condition on the thresholds that result; a write that `sscanf`
cannot parse returns -EINVAL and changes nothing. -/
theorem C13_store_one (t : Tunable) (sscanf_u : String → Option Nat) (buf : String)
    (count : Nat) (g : Globals) :
    (∀ v, sscanf_u buf = some v →
        (store_one t sscanf_u buf count g).1 = count
          ∧ t.get (store_one t sscanf_u buf count g).2.msm_thermal_info = v
          ∧ (∀ u, u ≠ t →
              u.get (store_one t sscanf_u buf count g).2.msm_thermal_info
                = u.get g.msm_thermal_info)
          ∧ (store_one t sscanf_u buf count g).2.msm_thermal_info.sensor_id
              = g.msm_thermal_info.sensor_id
          ∧ (store_one t sscanf_u buf count g).2.tstat = g.tstat
          ∧ (store_one t sscanf_u buf count g).2.prev_tstat = g.prev_tstat
          ∧ (store_one t sscanf_u buf count g).2.max_freq = g.max_freq)
      ∧ (sscanf_u buf = none → store_one t sscanf_u buf count g = (-EINVAL, g)) := by
  refine ⟨fun v hv => ?_, fun hn => ?_⟩
  · simp only [store_one, hv]
    refine ⟨trivial, ?_, ?_, ?_, trivial, trivial, trivial⟩
    · cases t <;> rfl
    · intro u hu
      cases t <;> cases u <;> first | rfl | exact absurd rfl hu
    · cases t <;> rfl
  · simp [store_one, hn]

/-- C13 at a concrete input: in the example configuration, writing 10 to
shutdown_temp is accepted although it puts shutdown_temp below every other
threshold; an unparsable write is rejected. -/
theorem C13_store_one_witness :
    store_one .shutdown_temp (fun _ => some 10) "10" 3 (boot example_platform example_cfg)
        = (3, boot example_platform { example_cfg with shutdown_temp := 10 })
      ∧ store_one .shutdown_temp (fun _ => none) "hot" 4 (boot example_platform example_cfg)
        = (-22, boot example_platform example_cfg) :=
  ⟨by decide,
    (C13_store_one .shutdown_temp (fun _ => none) "hot" 4
      (boot example_platform example_cfg)).2 rfl⟩

/-! ## C17: what msm_thermal_init has done when it returns -/

/-- C17: `msm_thermal_init` both queues the first poll (delay 0) and copies
`pdata` into the configuration if and only if `pdata` is non-null, its sensor
id is below TSENS_MAX_SENSORS and the workqueue allocation succeeds. In that
case the poll is queued exactly once whatever the return code is: -ENOMEM when
the kobject creation fails, the code of `sysfs_create_group` when that fails,
0 otherwise. With `pdata` null or the sensor id out of range it returns
-EINVAL with nothing copied and nothing queued. (When only the workqueue
allocation fails, it returns -ENOMEM with `pdata` already copied and nothing
queued.) -/
theorem C17_init_queues_and_copies (env : InitEnv) (pdata : Option msm_thermal_data)
    (g : Globals) :
    ((InitEffect.queue_delayed_work 0 ∈ (msm_thermal_init env pdata g).2.2
          ∧ ∃ d, pdata = some d
              ∧ InitEffect.memcpy_msm_thermal_info d ∈ (msm_thermal_init env pdata g).2.2
              ∧ (msm_thermal_init env pdata g).2.1.msm_thermal_info = d)
        ↔ ∃ d, pdata = some d ∧ d.sensor_id < env.TSENS_MAX_SENSORS
            ∧ env.alloc_workqueue_ok = true)
      ∧ (∀ d, pdata = some d → d.sensor_id < env.TSENS_MAX_SENSORS
          → env.alloc_workqueue_ok = true →
            (msm_thermal_init env pdata g).2.2.count (.queue_delayed_work 0) = 1
              ∧ (∀ ms, InitEffect.queue_delayed_work ms ∈ (msm_thermal_init env pdata g).2.2
                  → ms = 0)
              ∧ (msm_thermal_init env pdata g).1
                  = (if env.kobject_create_ok = false then -ENOMEM
                    else if env.sysfs_create_group_ret ≠ 0 then env.sysfs_create_group_ret
                    else 0))
      ∧ ((pdata = none ∨ ∃ d, pdata = some d ∧ d.sensor_id ≥ env.TSENS_MAX_SENSORS)
          → msm_thermal_init env pdata g = (-EINVAL, g, []))
      ∧ (∀ d, pdata = some d → d.sensor_id < env.TSENS_MAX_SENSORS
          → env.alloc_workqueue_ok = false →
            (msm_thermal_init env pdata g).1 = -ENOMEM
              ∧ (msm_thermal_init env pdata g).2.1.msm_thermal_info = d
              ∧ ∀ ms, InitEffect.queue_delayed_work ms ∉ (msm_thermal_init env pdata g).2.2) := by
  cases pdata with
  | none => simp [msm_thermal_init]
  | some d =>
    by_cases hs : d.sensor_id ≥ env.TSENS_MAX_SENSORS
    · simp [msm_thermal_init, hs, not_lt.mpr hs]
    · have hlt : d.sensor_id < env.TSENS_MAX_SENSORS := not_le.mp hs
      cases ha : env.alloc_workqueue_ok
      · simp [msm_thermal_init, hs, ha, hlt]
      · cases hk : env.kobject_create_ok
        · simp [msm_thermal_init, hs, ha, hk, hlt]
        · by_cases hrc : env.sysfs_create_group_ret = 0
          · simp [msm_thermal_init, hs, ha, hk, hrc, hlt]
          · simp [msm_thermal_init, hs, ha, hk, hrc, hlt]

/-- C17 at a concrete input: all of the initialisation succeeds except
`sysfs_create_group`, which returns -12. The function returns -12 and the
first poll is queued all the same. -/
theorem C17_init_queues_and_copies_witness :
    msm_thermal_init { example_env with sysfs_create_group_ret := -12 } (some example_cfg)
        (boot example_platform (worked_cfg 3 5 7))
      = (-12, boot example_platform example_cfg,
          [.memcpy_msm_thermal_info example_cfg, .alloc_workqueue, .INIT_DELAYED_WORK,
            .queue_delayed_work 0, .kobject_create_and_add, .sysfs_create_group,
            .pr_err_group, .kobject_put])
    ∧ (msm_thermal_init { example_env with sysfs_create_group_ret := -12 } (some example_cfg)
        (boot example_platform (worked_cfg 3 5 7))).2.2.count (.queue_delayed_work 0) = 1 :=
  ⟨by decide,
    ((C17_init_queues_and_copies { example_env with sysfs_create_group_ret := -12 }
      (some example_cfg) (boot example_platform (worked_cfg 3 5 7))).2.1
        example_cfg rfl (by decide) rfl).1⟩

/-! ## C14: repeated polls of one temperature -/

theorem switch_tstat_next (p : Platform) (temp : Nat) (g : Globals) :
    (switch_tstat p temp g).1.tstat = next_tstat g.msm_thermal_info temp g.tstat := by
  unfold switch_tstat next_tstat
  split <;> split_ifs <;> simp_all

/-- The state after a successful poll. -/
theorem check_temp_reading_tstat (p : Platform) (sr ur : Nat → Int) (temp : Nat) (g : Globals) :
    (check_temp p (poll_reading sr ur temp) g).1.tstat
      = next_tstat g.msm_thermal_info temp g.tstat := by
  rw [(check_temp_ok_state p (poll_reading sr ur temp) g temp rfl).1, switch_tstat_next]

/-- The state after `k` successful polls of the same temperature. -/
theorem run_polls_replicate (p : Platform) (sr ur : Nat → Int) (temp : Nat) (k : Nat)
    (g : Globals) :
    (run_polls p (List.replicate k (poll_reading sr ur temp)) g).msm_thermal_info
        = g.msm_thermal_info
      ∧ (run_polls p (List.replicate k (poll_reading sr ur temp)) g).tstat
        = (next_tstat g.msm_thermal_info temp)^[k] g.tstat := by
  induction k generalizing g with
  | zero => exact ⟨rfl, rfl⟩
  | succ k ih =>
    have h := ih (check_temp p (poll_reading sr ur temp) g).1
    rw [check_temp_frame, check_temp_reading_tstat] at h
    simp only [run_polls, List.replicate_succ, List.foldl_cons, Function.iterate_succ_apply]
      at h ⊢
    exact h

/-- Under the ordering of the thresholds two polls of one temperature reach a
state that a further poll does not change. -/
theorem next_tstat_settles (cfg : msm_thermal_data) (temp : Nat) (s : throttling_status)
    (h : thresholds_ordered cfg) :
    next_tstat cfg temp ((next_tstat cfg temp)^[2] s) = (next_tstat cfg temp)^[2] s := by
  obtain ⟨h1, h2, h3, _⟩ := h
  simp only [Function.iterate_succ_apply, Function.iterate_zero_apply]
  cases s <;> simp only [next_tstat] <;> split_ifs <;> first | rfl | omega

/-- C14: under the ordering allowed_low_rel_temp < allowed_low_temp
< allowed_high_rel_temp < allowed_high_temp < shutdown_temp, from every state
the state after k >= 2 successful polls of one temperature is the state after
two of them; and for the configuration with allowed_low_rel_temp = 70 above
allowed_low_temp = 60, polling 65 from the initial state alternates for ever:
UNTHROTTLED after every even number of polls, PHASE1 after every odd one. -/
theorem C14_no_oscillation (p : Platform) (sr ur : Nat → Int) (temp : Nat) (g : Globals) :
    (thresholds_ordered g.msm_thermal_info → ∀ k, 2 ≤ k →
        (run_polls p (List.replicate k (poll_reading sr ur temp)) g).tstat
          = (run_polls p (List.replicate 2 (poll_reading sr ur temp)) g).tstat)
      ∧ ∃ cfg t, cfg.allowed_low_rel_temp > cfg.allowed_low_temp ∧ ∀ k,
          (run_polls p (List.replicate (2 * k) (poll_reading sr ur t)) (boot p cfg)).tstat
              = .UNTHROTTLED
            ∧ (run_polls p (List.replicate (2 * k + 1) (poll_reading sr ur t))
                (boot p cfg)).tstat = .PHASE1 := by
  refine ⟨fun hord k hk => ?_, gapless_cfg, 65, by decide, fun k => ?_⟩
  · obtain ⟨j, rfl⟩ := Nat.exists_eq_add_of_le hk
    rw [(run_polls_replicate p sr ur temp (2 + j) g).2, (run_polls_replicate p sr ur temp 2 g).2,
      Nat.add_comm 2 j, Function.iterate_add_apply]
    exact Function.iterate_fixed (next_tstat_settles g.msm_thermal_info temp g.tstat hord) j
  · have h2 : (next_tstat gapless_cfg 65)^[2] throttling_status.UNTHROTTLED
        = throttling_status.UNTHROTTLED := by decide
    have heven : (next_tstat gapless_cfg 65)^[2 * k] throttling_status.UNTHROTTLED
        = throttling_status.UNTHROTTLED := by
      rw [Function.iterate_mul]
      exact Function.iterate_fixed h2 k
    refine ⟨?_, ?_⟩
    · rw [(run_polls_replicate p sr ur 65 (2 * k) (boot p gapless_cfg)).2]
      exact heven
    · rw [(run_polls_replicate p sr ur 65 (2 * k + 1) (boot p gapless_cfg)).2,
        Function.iterate_succ_apply']
      show next_tstat gapless_cfg 65
        ((next_tstat gapless_cfg 65)^[2 * k] throttling_status.UNTHROTTLED) = _
      rw [heven]
      decide

/-- C14 at a concrete input: the example configuration (ordered), from PHASE2,
polling 50: the state after five polls is the state after two, UNTHROTTLED. -/
theorem C14_no_oscillation_witness :
    thresholds_ordered (run_polls example_platform [poll_ok 62, poll_ok 78]
        (boot example_platform example_cfg)).msm_thermal_info
      ∧ (run_polls example_platform [poll_ok 62, poll_ok 78]
          (boot example_platform example_cfg)).tstat = .PHASE2
      ∧ (run_polls example_platform (List.replicate 5 (poll_reading (fun _ => 0) (fun _ => 0) 50))
          (run_polls example_platform [poll_ok 62, poll_ok 78]
            (boot example_platform example_cfg))).tstat
        = (run_polls example_platform (List.replicate 2 (poll_reading (fun _ => 0) (fun _ => 0) 50))
          (run_polls example_platform [poll_ok 62, poll_ok 78]
            (boot example_platform example_cfg))).tstat
      ∧ (run_polls example_platform (List.replicate 2 (poll_reading (fun _ => 0) (fun _ => 0) 50))
          (run_polls example_platform [poll_ok 62, poll_ok 78]
            (boot example_platform example_cfg))).tstat = .UNTHROTTLED :=
  ⟨by decide, rfl,
    (C14_no_oscillation example_platform (fun _ => 0) (fun _ => 0) 50
      (run_polls example_platform [poll_ok 62, poll_ok 78]
        (boot example_platform example_cfg))).1 (by decide) 5 (by decide),
    by decide⟩

/-! ## C15: applying a ceiling twice -/

theorem limits_after_append (inp : PollInput) (a b : List Effect) (limits : Nat → Nat × Nat) :
    limits_after inp (a ++ b) limits = limits_after inp b (limits_after inp a limits) := by
  induction a generalizing limits with
  | nil => rfl
  | cons e rest ih => cases e <;> simp [limits_after, ih]

/-- The limits the loop leaves: the new pair on every CPU of the loop whose
set-limit call succeeds, the old pair everywhere else. -/
theorem limits_after_apply_limits (p : Platform) (inp : PollInput) (c : Nat) (cpus : List Nat)
    (limits : Nat → Nat × Nat) :
    limits_after inp (apply_limits p inp c cpus) limits
      = fun j => if j ∈ cpus ∧ inp.set_freq_limits_ret j = 0 then (p.MSM_CPUFREQ_NO_LIMIT, c)
          else limits j := by
  induction cpus generalizing limits with
  | nil => simp [apply_limits, limits_after]
  | cons i rest ih =>
    have hlog : ∀ l : Nat → Nat × Nat,
        limits_after inp
          (if inp.update_policy_ret i ≠ 0 then [Effect.pr_debug_policy_failed i] else []) l
          = l := by
      intro l
      split_ifs <;> rfl
    have hcons : limits_after inp (apply_limits p inp c (i :: rest)) limits
        = limits_after inp (apply_limits p inp c rest)
            (set_freq_limits (inp.set_freq_limits_ret i) i p.MSM_CPUFREQ_NO_LIMIT c limits) := by
      show limits_after inp
        ([Effect.msm_cpufreq_set_freq_limits i p.MSM_CPUFREQ_NO_LIMIT c,
            Effect.cpufreq_update_policy i]
          ++ (if inp.update_policy_ret i ≠ 0 then [Effect.pr_debug_policy_failed i] else [])
          ++ apply_limits p inp c rest) limits = _
      rw [limits_after_append, limits_after_append, hlog]
      rfl
    rw [hcons, ih]
    funext j
    unfold set_freq_limits
    by_cases hj : j = i
    · subst hj
      by_cases hr : inp.set_freq_limits_ret j = 0 <;> simp [hr]
    · by_cases hr : inp.set_freq_limits_ret i = 0 <;> simp [hr, hj]

/-- C15: for every ceiling and every prior per-CPU limits, running the loop
of lines 95-103 twice leaves the same per-CPU (min, max) limits as running it
once, and each run issues one set-limit and one policy-update call per CPU. -/
theorem C15_apply_twice (p : Platform) (inp : PollInput) (c : Nat)
    (limits : Nat → Nat × Nat) :
    limits_after inp
        (apply_limits p inp c p.possible_cpus ++ apply_limits p inp c p.possible_cpus) limits
        = limits_after inp (apply_limits p inp c p.possible_cpus) limits
      ∧ (apply_limits p inp c p.possible_cpus).filter Effect.is_limiter
        = (p.possible_cpus.flatMap fun i =>
            [.msm_cpufreq_set_freq_limits i p.MSM_CPUFREQ_NO_LIMIT c, .cpufreq_update_policy i])
      ∧ (apply_limits p inp c p.possible_cpus ++ apply_limits p inp c p.possible_cpus).filter
          Effect.is_limiter
        = (p.possible_cpus.flatMap fun i =>
            [.msm_cpufreq_set_freq_limits i p.MSM_CPUFREQ_NO_LIMIT c, .cpufreq_update_policy i])
          ++ (p.possible_cpus.flatMap fun i =>
            [.msm_cpufreq_set_freq_limits i p.MSM_CPUFREQ_NO_LIMIT c, .cpufreq_update_policy i]) := by
  refine ⟨?_, apply_limits_limiter p inp c _, ?_⟩
  · rw [limits_after_append, limits_after_apply_limits, limits_after_apply_limits]
    funext j
    by_cases h : j ∈ p.possible_cpus ∧ inp.set_freq_limits_ret j = 0 <;> simp [h]
  · rw [List.filter_append, apply_limits_limiter]

/-- C15 at a concrete input: four CPUs with prior limits (300, 1500), ceiling
800: after one run and after two runs CPU 1 has limits (no limit, 800) and
CPU 9, which is not a CPU of the platform, still has (300, 1500). -/
theorem C15_apply_twice_witness :
    limits_after (poll_ok 78)
        (apply_limits example_platform (poll_ok 78) 800 example_platform.possible_cpus
          ++ apply_limits example_platform (poll_ok 78) 800 example_platform.possible_cpus)
        (fun _ => (300, 1500)) 1
      = limits_after (poll_ok 78)
          (apply_limits example_platform (poll_ok 78) 800 example_platform.possible_cpus)
          (fun _ => (300, 1500)) 1
    ∧ limits_after (poll_ok 78)
          (apply_limits example_platform (poll_ok 78) 800 example_platform.possible_cpus)
          (fun _ => (300, 1500)) 1 = (4294967295, 800)
    ∧ limits_after (poll_ok 78)
          (apply_limits example_platform (poll_ok 78) 800 example_platform.possible_cpus)
          (fun _ => (300, 1500)) 9 = (300, 1500) :=
  ⟨congrFun (C15_apply_twice example_platform (poll_ok 78) 800 (fun _ => (300, 1500))).1 1,
    by decide, by decide⟩

/-! ## C16: three polls at or above shutdown_temp -/

/-- One successful poll at or above shutdown_temp under the ordering: the
state it leaves and its emergency actions, by the state it starts in. -/
theorem hot_poll (p : Platform) (sr ur : Nat → Int) (temp : Nat) (g : Globals)
    (hord : thresholds_ordered g.msm_thermal_info)
    (ht : temp ≥ g.msm_thermal_info.shutdown_temp) :
    (check_temp p (poll_reading sr ur temp) g).1.msm_thermal_info = g.msm_thermal_info
      ∧ (g.tstat = .UNTHROTTLED →
          (check_temp p (poll_reading sr ur temp) g).1.tstat = .PHASE1
            ∧ (check_temp p (poll_reading sr ur temp) g).2.filter Effect.is_shutdown = [])
      ∧ (g.tstat = .PHASE1 →
          (check_temp p (poll_reading sr ur temp) g).1.tstat = .PHASE2
            ∧ (check_temp p (poll_reading sr ur temp) g).2.filter Effect.is_shutdown = [])
      ∧ (g.tstat = .PHASE2 →
          (check_temp p (poll_reading sr ur temp) g).1.tstat = .PHASE2
            ∧ (check_temp p (poll_reading sr ur temp) g).2.filter Effect.is_shutdown
                = [.emergency_sync, .kernel_power_off]) := by
  obtain ⟨h1, h2, h3, h4⟩ := hord
  have hst := check_temp_ok_state p (poll_reading sr ur temp) g temp rfl
  have hsh := check_temp_ok_shutdown p (poll_reading sr ur temp) g temp rfl
  rw [hst.1, hsh]
  refine ⟨check_temp_frame _ _ _, fun hs => ?_, fun hs => ?_, fun hs => ?_⟩
  · simp only [switch_tstat, hs]
    rw [if_pos (by omega)]
    simp
  · simp only [switch_tstat, hs]
    rw [if_neg (by omega), if_pos (by omega)]
    simp
  · simp only [switch_tstat, hs]
    rw [if_neg (by omega), if_pos (by omega)]
    simp [hs, Effect.is_shutdown]

theorem power_off_of_shutdown_filter (trace : List Effect)
    (h : trace.filter Effect.is_shutdown = [.emergency_sync, .kernel_power_off]) :
    Effect.kernel_power_off ∈ trace := by
  have hm : Effect.kernel_power_off ∈ trace.filter Effect.is_shutdown := by
    rw [h]
    simp
  exact (List.mem_filter.mp hm).1

/-- C16: under the ordering allowed_low_rel_temp < allowed_low_temp
< allowed_high_rel_temp < allowed_high_temp < shutdown_temp and from every
state, one of three consecutive successful polls with readings at or above
shutdown_temp runs the power-off; from UNTHROTTLED the first two of them run
no emergency action and the third runs the flush and the power-off. -/
theorem C16_three_hot_polls (p : Platform) (sr ur : Nat → Int) (t1 t2 t3 : Nat) (g : Globals)
    (hord : thresholds_ordered g.msm_thermal_info)
    (h1 : t1 ≥ g.msm_thermal_info.shutdown_temp)
    (h2 : t2 ≥ g.msm_thermal_info.shutdown_temp)
    (h3 : t3 ≥ g.msm_thermal_info.shutdown_temp) :
    (∃ r ∈ poll_results p
          [poll_reading sr ur t1, poll_reading sr ur t2, poll_reading sr ur t3] g,
        Effect.kernel_power_off ∈ r.2)
      ∧ (g.tstat = .UNTHROTTLED →
          (poll_results p
              [poll_reading sr ur t1, poll_reading sr ur t2, poll_reading sr ur t3] g).map
            (fun r => r.2.filter Effect.is_shutdown)
            = [[], [], [.emergency_sync, .kernel_power_off]]) := by
  have hp0 := hot_poll p sr ur t1 g hord h1
  have hp1 := hot_poll p sr ur t2 (check_temp p (poll_reading sr ur t1) g).1
    (by rw [hp0.1]; exact hord) (by rw [hp0.1]; exact h2)
  have hp2 := hot_poll p sr ur t3
    (check_temp p (poll_reading sr ur t2) (check_temp p (poll_reading sr ur t1) g).1).1
    (by rw [hp1.1, hp0.1]; exact hord) (by rw [hp1.1, hp0.1]; exact h3)
  simp only [poll_results, List.mem_cons, List.mem_singleton, List.not_mem_nil, or_false,
    List.map_cons, List.map_nil]
  refine ⟨?_, fun hs => ?_⟩
  · cases hs : g.tstat with
    | UNTHROTTLED =>
      exact ⟨_, Or.inr (Or.inr rfl),
        power_off_of_shutdown_filter _ (hp2.2.2.2 (hp1.2.2.1 (hp0.2.1 hs).1).1).2⟩
    | PHASE1 =>
      exact ⟨_, Or.inr (Or.inl rfl), power_off_of_shutdown_filter _ (hp1.2.2.2 (hp0.2.2.1 hs).1).2⟩
    | PHASE2 =>
      exact ⟨_, Or.inl rfl, power_off_of_shutdown_filter _ (hp0.2.2.2 hs).2⟩
  · rw [(hp0.2.1 hs).2, (hp1.2.2.1 (hp0.2.1 hs).1).2,
      (hp2.2.2.2 (hp1.2.2.1 (hp0.2.1 hs).1).1).2]

/-- C16 at a concrete input: the example configuration from the initial
state, readings 95, 120, 96. -/
theorem C16_three_hot_polls_witness :
    thresholds_ordered (boot example_platform example_cfg).msm_thermal_info
      ∧ (boot example_platform example_cfg).tstat = .UNTHROTTLED
      ∧ (poll_results example_platform
            [poll_reading (fun _ => 0) (fun _ => 0) 95, poll_reading (fun _ => 0) (fun _ => 0) 120,
              poll_reading (fun _ => 0) (fun _ => 0) 96]
            (boot example_platform example_cfg)).map
          (fun r => r.2.filter Effect.is_shutdown)
        = [[], [], [.emergency_sync, .kernel_power_off]] :=
  ⟨by decide, rfl,
    (C16_three_hot_polls example_platform (fun _ => 0) (fun _ => 0) 95 120 96
      (boot example_platform example_cfg) (by decide) (by decide) (by decide) (by decide)).2
      rfl⟩

end MsmThermal

namespace Sweep2Sleep

/-! ## C18: at most one power switch between two resets -/

theorem pwrswitch_count_pwrswitch (g : Globals) :
    pwrswitch_count (sweep2sleep_pwrswitch g) = 1 := by
  unfold pwrswitch_count sweep2sleep_pwrswitch
  split_ifs <;> simp

theorem pwrswitch_once_budget (g : Globals) :
    pwrswitch_count (pwrswitch_once g).2 + budget (pwrswitch_once g).1 = budget g := by
  unfold pwrswitch_once
  split_ifs with h
  · simp [pwrswitch_count_pwrswitch, budget, h]
  · simp [pwrswitch_count]

theorem detect_bottom_rl_budget (x y : Int) (g : Globals) :
    pwrswitch_count (detect_bottom_rl x y g).2 + budget (detect_bottom_rl x y g).1
      = budget g := by
  unfold detect_bottom_rl
  simp only []
  split_ifs <;>
    first
    | exact pwrswitch_once_budget _
    | simp [pwrswitch_count, budget]

theorem detect_bottom_lr_budget (x y : Int) (g : Globals) :
    pwrswitch_count (detect_bottom_lr x y g).1.2 + budget (detect_bottom_lr x y g).1.1
      = budget g := by
  unfold detect_bottom_lr
  simp only []
  split_ifs <;>
    first
    | exact pwrswitch_once_budget _
    | simp [pwrswitch_count, budget]

theorem detect_top_rl_budget (x y : Int) (g : Globals) :
    pwrswitch_count (detect_top_rl x y g).2 + budget (detect_top_rl x y g).1 = budget g := by
  unfold detect_top_rl
  simp only []
  split_ifs <;>
    first
    | exact pwrswitch_once_budget _
    | simp [pwrswitch_count, budget]

theorem detect_top_lr_budget (x y n : Int) (g : Globals) :
    pwrswitch_count (detect_top_lr x y n g).2 + budget (detect_top_lr x y n g).1
      = budget g := by
  unfold detect_top_lr
  simp only []
  split_ifs <;>
    first
    | exact pwrswitch_once_budget _
    | simp [pwrswitch_count, budget]

theorem pwrswitch_count_append (a b : List Effect) :
    pwrswitch_count (a ++ b) = pwrswitch_count a + pwrswitch_count b := by
  simp [pwrswitch_count]

/-- One call spends what it fires out of the budget. -/
theorem detect_sweep2sleep_budget (x y : Int) (st : Bool) (g : Globals) :
    pwrswitch_count (detect_sweep2sleep x y st g).2 + budget (detect_sweep2sleep x y st g).1
      = budget g := by
  unfold detect_sweep2sleep
  split_ifs
  · simp only [pwrswitch_count_append]
    have h0 : budget { g with scr_on_touch := true } = budget g := rfl
    have h1 := detect_bottom_rl_budget x y { g with scr_on_touch := true }
    have h2 := detect_bottom_lr_budget x y (detect_bottom_rl x y { g with scr_on_touch := true }).1
    have h3 := detect_top_rl_budget x y
      (detect_bottom_lr x y (detect_bottom_rl x y { g with scr_on_touch := true }).1).1.1
    have h4 := detect_top_lr_budget x y
      (detect_bottom_lr x y (detect_bottom_rl x y { g with scr_on_touch := true }).1).2
      (detect_top_rl x y
        (detect_bottom_lr x y (detect_bottom_rl x y { g with scr_on_touch := true }).1).1.1).1
    omega
  · simp [pwrswitch_count]

theorem run_calls_budget (calls : List Call) (g : Globals) :
    pwrswitch_count (run_calls calls g).2 + budget (run_calls calls g).1 = budget g := by
  induction calls generalizing g with
  | nil => simp [run_calls, pwrswitch_count]
  | cons c rest ih =>
    simp only [run_calls, pwrswitch_count_append]
    have h1 := detect_sweep2sleep_budget c.sweep_coord c.sweep_height c.st
      { g with s2s_enabled := c.s2s_enabled }
    have h0 : budget { g with s2s_enabled := c.s2s_enabled } = budget g := rfl
    have h2 := ih (detect_sweep2sleep c.sweep_coord c.sweep_height c.st
      { g with s2s_enabled := c.s2s_enabled }).1
    omega

theorem budget_le_one (g : Globals) : budget g ≤ 1 := by
  unfold budget
  split_ifs <;> simp

/-- C18: from any globals, any sequence of calls of `detect_sweep2sleep` (any
coordinates, any `s2s_enabled` at each call) with no `sweep2sleep_reset` in
between invokes `sweep2sleep_pwrswitch` at most once in total, and not at all
when `exec_count` is already cleared; a single call invokes it at most once. -/
theorem C18_pwrswitch_at_most_once (calls : List Call) (x y : Int) (st : Bool) (g : Globals) :
    pwrswitch_count (run_calls calls g).2 ≤ 1
      ∧ pwrswitch_count (detect_sweep2sleep x y st g).2 ≤ 1
      ∧ (g.exec_count = false → pwrswitch_count (run_calls calls g).2 = 0) := by
  have h1 := run_calls_budget calls g
  have h2 := detect_sweep2sleep_budget x y st g
  have h3 := budget_le_one g
  refine ⟨by omega, by omega, fun h => ?_⟩
  have h4 : budget g = 0 := by simp [budget, h]
  omega

/-- C18 at a concrete input: a completed bottom right-to-left sweep followed
by two more samples left of the last barrier: one invocation in all. -/
theorem C18_pwrswitch_at_most_once_witness :
    pwrswitch_count (run_calls
        [⟨1, 800, 1800, true⟩, ⟨1, 600, 1800, true⟩, ⟨1, 100, 1800, true⟩,
          ⟨1, 50, 1800, true⟩, ⟨1, 100, 1850, true⟩]
        (sweep2sleep_reset example_globals)).2 ≤ 1
      ∧ pwrswitch_count (run_calls
        [⟨1, 800, 1800, true⟩, ⟨1, 600, 1800, true⟩, ⟨1, 100, 1800, true⟩,
          ⟨1, 50, 1800, true⟩, ⟨1, 100, 1850, true⟩]
        (sweep2sleep_reset example_globals)).2 = 1 :=
  ⟨(C18_pwrswitch_at_most_once
      [⟨1, 800, 1800, true⟩, ⟨1, 600, 1800, true⟩, ⟨1, 100, 1800, true⟩,
        ⟨1, 50, 1800, true⟩, ⟨1, 100, 1850, true⟩]
      0 0 true (sweep2sleep_reset example_globals)).1,
    by decide⟩

/-! ## C19: the bottom right-to-left sweep -/

/-- First stage: a sample between X_B2 and X_B5 in the bottom strip, no
barrier of the other branches being set, sets `bbarrier[0]` and nothing
else. -/
theorem stage_one (x y : Int) (g : Globals) (hs : g.s2s_enabled = 1)
    (hx1 : 750 < x) (hx2 : x < 880) (hy : 1790 < y)
    (hb1 : g.bbarrier_1 = false) (hrb : g.reverseb_barrier_0 = false)
    (ht : g.tbarrier_0 = false) (hrt : g.reverset_barrier_0 = false) :
    detect_sweep2sleep x y true g
      = ({ g with scr_on_touch := true, bbarrier_0 := true }, []) := by
  have e1 : ¬ x < 750 := by omega
  have e2 : ¬ x < 350 := by omega
  have e3 : ¬ y < 100 := by omega
  simp [detect_sweep2sleep, detect_bottom_rl, detect_bottom_lr, detect_top_rl, detect_top_lr,
    DEFAULT_S2S_X_B0, DEFAULT_S2S_X_B1, DEFAULT_S2S_X_B2, DEFAULT_S2S_X_B3, DEFAULT_S2S_X_B4,
    DEFAULT_S2S_X_B5, DEFAULT_S2S_X_MAX, DEFAULT_S2S_Y_MAX, DEFAULT_S2S_Y_LIMIT_BOTTOM,
    DEFAULT_S2S_Y_LIMIT_TOP, hs, hx1, hx2, hy, hb1, hrb, ht, hrt, e1, e2, e3]

/-- Second stage: with `bbarrier[0]` set, a sample between X_B1 and X_B2 in
the bottom strip sets `bbarrier[1]` and nothing else. -/
theorem stage_two (x y : Int) (g : Globals) (hs : g.s2s_enabled = 1)
    (hx1 : 450 < x) (hx2 : x < 750) (hy : 1790 < y)
    (hb0 : g.bbarrier_0 = true) (hrb : g.reverseb_barrier_0 = false)
    (ht : g.tbarrier_0 = false) (hrt : g.reverset_barrier_0 = false) :
    detect_sweep2sleep x y true g
      = ({ g with scr_on_touch := true, bbarrier_0 := true, bbarrier_1 := true }, []) := by
  have e1 : ¬ x < 450 := by omega
  have e2 : ¬ x < 350 := by omega
  have e3 : ¬ y < 100 := by omega
  simp [detect_sweep2sleep, detect_bottom_rl, detect_bottom_lr, detect_top_rl, detect_top_lr,
    DEFAULT_S2S_X_B0, DEFAULT_S2S_X_B1, DEFAULT_S2S_X_B2, DEFAULT_S2S_X_B3, DEFAULT_S2S_X_B4,
    DEFAULT_S2S_X_B5, DEFAULT_S2S_X_MAX, DEFAULT_S2S_Y_MAX, DEFAULT_S2S_Y_LIMIT_BOTTOM,
    DEFAULT_S2S_Y_LIMIT_TOP, hs, hx1, hx2, hy, hb0, hrb, ht, hrt, e1, e2, e3]

/-- Third stage: with both barriers set and `exec_count` still set, a sample
left of X_B0 in the bottom strip invokes `sweep2sleep_pwrswitch` and clears
`exec_count`. -/
theorem stage_three (x y : Int) (g : Globals) (hs : g.s2s_enabled = 1)
    (hx : x < 200) (hy : 1790 < y)
    (hb0 : g.bbarrier_0 = true) (hb1 : g.bbarrier_1 = true) (he : g.exec_count = true)
    (hrb : g.reverseb_barrier_0 = false)
    (ht : g.tbarrier_0 = false) (hrt : g.reverset_barrier_0 = false) :
    detect_sweep2sleep x y true g
      = ({ g with scr_on_touch := true, bbarrier_0 := true, bbarrier_1 := true,
                  exec_count := false }, sweep2sleep_pwrswitch g) := by
  have e1 : x < 450 := by omega
  have e2 : ¬ 200 < x := by omega
  have e3 : ¬ y < 100 := by omega
  simp [detect_sweep2sleep, detect_bottom_rl, detect_bottom_lr, detect_top_rl, detect_top_lr,
    pwrswitch_once, sweep2sleep_pwrswitch,
    DEFAULT_S2S_X_B0, DEFAULT_S2S_X_B1, DEFAULT_S2S_X_B2, DEFAULT_S2S_X_B3, DEFAULT_S2S_X_B4,
    DEFAULT_S2S_X_B5, DEFAULT_S2S_X_MAX, DEFAULT_S2S_Y_MAX, DEFAULT_S2S_Y_LIMIT_BOTTOM,
    DEFAULT_S2S_Y_LIMIT_TOP, hs, hx, hy, hb0, hb1, he, hrb, ht, hrt, e1, e2, e3]

/-- C19: with `s2s_enabled` = 1 and starting right after `sweep2sleep_reset`,
three successive samples (x1, y1), (x2, y2), (x3, y3) with 750 < x1 < 880,
450 < x2 < 750, x3 < 200 and y1, y2, y3 > 1790 invoke `sweep2sleep_pwrswitch`
exactly once, at the third sample and not at the first two. -/
theorem C19_bottom_sweep (g : Globals) (x1 y1 x2 y2 x3 y3 : Int) (hs : g.s2s_enabled = 1)
    (h1 : 750 < x1 ∧ x1 < 880) (h2 : 450 < x2 ∧ x2 < 750) (h3 : x3 < 200)
    (hy : y1 > 1790 ∧ y2 > 1790 ∧ y3 > 1790) :
    pwrswitch_count (detect_sweep2sleep x1 y1 true (sweep2sleep_reset g)).2 = 0
      ∧ pwrswitch_count
          (detect_sweep2sleep x2 y2 true
            (detect_sweep2sleep x1 y1 true (sweep2sleep_reset g)).1).2 = 0
      ∧ pwrswitch_count
          (detect_sweep2sleep x3 y3 true
            (detect_sweep2sleep x2 y2 true
              (detect_sweep2sleep x1 y1 true (sweep2sleep_reset g)).1).1).2 = 1
      ∧ pwrswitch_count
          (run_calls [⟨1, x1, y1, true⟩, ⟨1, x2, y2, true⟩, ⟨1, x3, y3, true⟩]
            (sweep2sleep_reset g)).2 = 1 := by
  have hs0 : (sweep2sleep_reset g).s2s_enabled = 1 := hs
  have hself : ∀ k : Globals, k.s2s_enabled = 1 → { k with s2s_enabled := 1 } = k := by
    intro k hk
    cases k
    simp_all
  have r1 := stage_one x1 y1 (sweep2sleep_reset g) hs0 h1.1 h1.2 hy.1 rfl rfl rfl rfl
  have r2 := stage_two x2 y2 (detect_sweep2sleep x1 y1 true (sweep2sleep_reset g)).1
    (by rw [r1]; exact hs) h2.1 h2.2 hy.2.1 (by rw [r1]) (by rw [r1]; rfl) (by rw [r1]; rfl)
    (by rw [r1]; rfl)
  have r3 := stage_three x3 y3
    (detect_sweep2sleep x2 y2 true (detect_sweep2sleep x1 y1 true (sweep2sleep_reset g)).1).1
    (by rw [r2, r1]; exact hs) h3 hy.2.2 (by rw [r2]) (by rw [r2]) (by rw [r2, r1]; rfl)
    (by rw [r2, r1]; rfl) (by rw [r2, r1]; rfl) (by rw [r2, r1]; rfl)
  have c1 : pwrswitch_count (detect_sweep2sleep x1 y1 true (sweep2sleep_reset g)).2 = 0 := by
    rw [r1]; rfl
  have c2 : pwrswitch_count
      (detect_sweep2sleep x2 y2 true
        (detect_sweep2sleep x1 y1 true (sweep2sleep_reset g)).1).2 = 0 := by
    rw [r2]; rfl
  have c3 : pwrswitch_count
      (detect_sweep2sleep x3 y3 true
        (detect_sweep2sleep x2 y2 true
          (detect_sweep2sleep x1 y1 true (sweep2sleep_reset g)).1).1).2 = 1 := by
    rw [r3]; exact pwrswitch_count_pwrswitch _
  refine ⟨c1, c2, c3, ?_⟩
  simp only [run_calls, pwrswitch_count_append]
  rw [hself _ hs0, hself _ (by rw [r1]; exact hs), hself _ (by rw [r2, r1]; exact hs), c1, c2, c3]
  rfl

/-- C19 at a concrete input: the samples (800, 1800), (600, 1800),
(100, 1800) after a reset of the example globals. -/
theorem C19_bottom_sweep_witness :
    example_globals.s2s_enabled = 1
      ∧ pwrswitch_count (detect_sweep2sleep 800 1800 true
          (sweep2sleep_reset example_globals)).2 = 0
      ∧ pwrswitch_count
          (detect_sweep2sleep 600 1800 true
            (detect_sweep2sleep 800 1800 true (sweep2sleep_reset example_globals)).1).2 = 0
      ∧ pwrswitch_count
          (detect_sweep2sleep 100 1800 true
            (detect_sweep2sleep 600 1800 true
              (detect_sweep2sleep 800 1800 true (sweep2sleep_reset example_globals)).1).1).2
          = 1 :=
  ⟨rfl,
    (C19_bottom_sweep example_globals 800 1800 600 1800 100 1800 rfl
      (by decide) (by decide) (by decide) (by decide)).1,
    (C19_bottom_sweep example_globals 800 1800 600 1800 100 1800 rfl
      (by decide) (by decide) (by decide) (by decide)).2.1,
    (C19_bottom_sweep example_globals 800 1800 600 1800 100 1800 rfl
      (by decide) (by decide) (by decide) (by decide)).2.2.1⟩

/-! ## C21: the local read in line 219 -/

/-- The local `reverseb_next_coord` leaves the bottom branch as X_B3 = 350 or
as X_B4 = 630. -/
theorem detect_bottom_lr_local (x y : Int) (g : Globals) :
    (detect_bottom_lr x y g).2 = 350 ∨ (detect_bottom_lr x y g).2 = 630 := by
  unfold detect_bottom_lr
  simp only [DEFAULT_S2S_X_B3, DEFAULT_S2S_X_B4, DEFAULT_S2S_X_B0, DEFAULT_S2S_X_MAX]
  split_ifs <;> simp

/-- The top left-to-right branch does the same with any value up to X_B5 in
`reverset_prev_coord`: the test that follows asks for more than X_B5. -/
theorem detect_top_lr_eq_variant (x y n : Int) (g : Globals) (hn : n ≤ 880) :
    detect_top_lr x y n g = detect_top_lr_variant x y g := by
  unfold detect_top_lr detect_top_lr_variant
  simp only [DEFAULT_S2S_X_B0, DEFAULT_S2S_X_B3, DEFAULT_S2S_X_B4, DEFAULT_S2S_X_B5,
    DEFAULT_S2S_X_MAX, DEFAULT_S2S_Y_LIMIT_TOP]
  split_ifs <;> first | rfl | omega

/-- C21: for every prior state and every input (sweep_coord, sweep_height,
st), `detect_sweep2sleep` as written, with `reverset_prev_coord =
reverseb_next_coord` in line 219, returns the same globals (barrier flags and
exec_count included) and makes the same calls (so the same number of
`sweep2sleep_pwrswitch` invocations) as the variant that assigns
`reverset_prev_coord = reverset_next_coord`. -/
theorem C21_line_219_harmless (x y : Int) (st : Bool) (g : Globals) :
    detect_sweep2sleep x y st g = detect_sweep2sleep_variant x y st g
      ∧ (detect_sweep2sleep x y st g).1.reverset_barrier_0
          = (detect_sweep2sleep_variant x y st g).1.reverset_barrier_0
      ∧ (detect_sweep2sleep x y st g).1.reverset_barrier_1
          = (detect_sweep2sleep_variant x y st g).1.reverset_barrier_1
      ∧ (detect_sweep2sleep x y st g).1.exec_count
          = (detect_sweep2sleep_variant x y st g).1.exec_count
      ∧ pwrswitch_count (detect_sweep2sleep x y st g).2
          = pwrswitch_count (detect_sweep2sleep_variant x y st g).2 := by
  have h : detect_sweep2sleep x y st g = detect_sweep2sleep_variant x y st g := by
    unfold detect_sweep2sleep detect_sweep2sleep_variant
    split_ifs
    · have hn : (detect_bottom_lr x y
          (detect_bottom_rl x y { g with scr_on_touch := true }).1).2 ≤ 880 := by
        rcases detect_bottom_lr_local x y
          (detect_bottom_rl x y { g with scr_on_touch := true }).1 with h | h <;> omega
      simp only [detect_top_lr_eq_variant _ _ _ _ hn]
    · rfl
  exact ⟨h, by rw [h], by rw [h], by rw [h], by rw [h]⟩

/-- C21 at concrete inputs. At (500, 50) line 219 assigns 350 where the
variant assigns 630, the test of line 221 passes in the source only, and
neither fires; at (900, 50) both fire once. -/
theorem C21_line_219_harmless_witness :
    (detect_bottom_lr 500 50 { top_lr_armed with scr_on_touch := true }).2 = 350
      ∧ detect_sweep2sleep 500 50 true top_lr_armed
          = detect_sweep2sleep_variant 500 50 true top_lr_armed
      ∧ pwrswitch_count (detect_sweep2sleep 500 50 true top_lr_armed).2 = 0
      ∧ pwrswitch_count (detect_sweep2sleep 900 50 true top_lr_armed).2 = 1
      ∧ pwrswitch_count (detect_sweep2sleep_variant 900 50 true top_lr_armed).2 = 1 :=
  ⟨by decide, (C21_line_219_harmless 500 50 true top_lr_armed).1, by decide, by decide,
    by decide⟩

end Sweep2Sleep

namespace TouchBoost

/-! ## C20: the decision of the input handler -/

/-- The loop of lines 100-103 returns early exactly when one of the first
`nr_boost_cpus` entries is zero. -/
theorem freqs_loop_returns (g : Globals) :
    (List.range g.nr_boost_cpus).any (fun i => decide (g.input_boost_freqs i = 0)) = true
      ↔ ∃ i, i < g.nr_boost_cpus ∧ g.input_boost_freqs i = 0 := by
  simp [List.any_eq_true, List.mem_range]

/-- The handler, with the `u64` arithmetic on `now` carried out. -/
theorem touchboost_input_event_eq (g : Globals) (inp : EventInput) (hnow : inp.now < 2 ^ 64) :
    touchboost_input_event g inp
      = if (∀ i, i < g.nr_boost_cpus → g.input_boost_freqs i ≠ 0)
            ∧ inp.now ≥ (g.min_input_interval * 1000) % 2 ^ 32
            ∧ inp.work_pending = false then
          [.queue_work]
        else [] := by
  have hsub : (inp.now % 2 ^ 64 + 2 ^ 64 - 0) % 2 ^ 64 = inp.now := by
    rw [Nat.sub_zero, Nat.add_mod_right, Nat.mod_mod, Nat.mod_eq_of_lt hnow]
  unfold touchboost_input_event
  simp only [hsub, USEC_PER_MSEC, BITS_PER_LONG]
  by_cases hz : (List.range g.nr_boost_cpus).any
      (fun i => decide (g.input_boost_freqs i = 0)) = true
  · have hex := (freqs_loop_returns g).mp hz
    obtain ⟨i, hi, h0⟩ := hex
    rw [if_pos hz, if_neg]
    rintro ⟨hall, -, -⟩
    exact hall i hi h0
  · have hall : ∀ i, i < g.nr_boost_cpus → g.input_boost_freqs i ≠ 0 := by
      intro i hi h0
      exact hz ((freqs_loop_returns g).mpr ⟨i, hi, h0⟩)
    rw [if_neg hz]
    by_cases hlt : inp.now < g.min_input_interval * 1000 % 2 ^ 32
    · rw [if_pos hlt, if_neg]
      rintro ⟨-, hge, -⟩
      omega
    · rw [if_neg hlt]
      cases hp : inp.work_pending
      · rw [if_neg (by simp), if_pos ⟨hall, by omega, rfl⟩]
      · rw [if_pos rfl, if_neg]
        rintro ⟨-, -, h⟩
        cases h

/-- C20, as the code has it: in whatever state earlier events and runs of the
boost work have left the driver, the handler queues the boost work on an
event if and only if each of the first `nr_boost_cpus` entries of
`input_boost_freqs` is non-zero, `now` is at least `min_input_interval * 1000`
and no boost work is pending, with the parameters and the pending flag as
they are when the event arrives and for `min_input_interval * 1000` below
2^32; otherwise it makes no call. The handler leaves the module parameters
as they are and sets the pending flag exactly when it queues. -/
theorem C20_event_decision (env : BoostEnv) (steps : List Step) (s : Driver)
    (now now_after : Nat) (hnow : now < 2 ^ 64)
    (hsmall : (driver_after env steps s).g.min_input_interval * 1000 < 2 ^ 32) :
    ((driver_step env (.event now now_after) (driver_after env steps s)).2 = [.queue_work]
        ↔ (∀ i, i < (driver_after env steps s).g.nr_boost_cpus
              → (driver_after env steps s).g.input_boost_freqs i ≠ 0)
          ∧ now ≥ (driver_after env steps s).g.min_input_interval * 1000
          ∧ (driver_after env steps s).work_pending = false)
      ∧ ((driver_step env (.event now now_after) (driver_after env steps s)).2 ≠ [.queue_work]
          → (driver_step env (.event now now_after) (driver_after env steps s)).2 = [])
      ∧ (driver_step env (.event now now_after) (driver_after env steps s)).1.g.nr_boost_cpus
          = (driver_after env steps s).g.nr_boost_cpus
      ∧ (driver_step env (.event now now_after) (driver_after env steps s)).1.g.min_input_interval
          = (driver_after env steps s).g.min_input_interval
      ∧ (driver_step env (.event now now_after) (driver_after env steps s)).1.g.input_boost_freqs
          = (driver_after env steps s).g.input_boost_freqs
      ∧ (driver_step env (.event now now_after) (driver_after env steps s)).1.work_pending
          = ((driver_after env steps s).work_pending
              || decide ((driver_step env (.event now now_after)
                  (driver_after env steps s)).2 = [.queue_work])) := by
  generalize driver_after env steps s = d at hsmall ⊢
  have heq := touchboost_input_event_eq d.g ⟨now, now_after, d.work_pending⟩ hnow
  rw [Nat.mod_eq_of_lt hsmall] at heq
  by_cases h : (∀ i, i < d.g.nr_boost_cpus → d.g.input_boost_freqs i ≠ 0)
      ∧ now ≥ d.g.min_input_interval * 1000 ∧ d.work_pending = false
  · have hT : touchboost_input_event d.g ⟨now, now_after, d.work_pending⟩ = [.queue_work] := by
      rw [heq]
      exact if_pos h
    simp only [driver_step, hT]
    exact ⟨⟨fun _ => h, fun _ => trivial⟩, by simp, by simp⟩
  · have hT : touchboost_input_event d.g ⟨now, now_after, d.work_pending⟩ = [] := by
      rw [heq]
      exact if_neg h
    simp only [driver_step, hT]
    exact ⟨⟨fun hq => (by simp at hq), fun hc => absurd hc h⟩, by simp, by simp⟩

/-- C20 at a concrete input: the default parameters (interval 150 ms), after
an early event that was not queued, an event at 200000 us is queued. -/
theorem C20_event_decision_witness :
    (200000 : Nat) < 2 ^ 64
      ∧ (driver_after example_env [.event 10 11, .work_runs]
          ⟨params 150, false⟩).g.min_input_interval * 1000 < 2 ^ 32
      ∧ (∀ i, i < (driver_after example_env [.event 10 11, .work_runs]
              ⟨params 150, false⟩).g.nr_boost_cpus
            → (driver_after example_env [.event 10 11, .work_runs]
                ⟨params 150, false⟩).g.input_boost_freqs i ≠ 0)
      ∧ (driver_step example_env (.event 200000 200001)
          (driver_after example_env [.event 10 11, .work_runs] ⟨params 150, false⟩)).2
        = [.queue_work] := by
  have hall : ∀ i, i < (driver_after example_env [.event 10 11, .work_runs]
        ⟨params 150, false⟩).g.nr_boost_cpus
      → (driver_after example_env [.event 10 11, .work_runs]
          ⟨params 150, false⟩).g.input_boost_freqs i ≠ 0 := by
    intro i hi
    have h4 : i < 4 := hi
    show (if i < 4 then 1026000 else 0) ≠ 0
    simp [h4]
  exact ⟨by decide, by decide, hall,
    ((C20_event_decision example_env [.event 10 11, .work_runs] ⟨params 150, false⟩
      200000 200001 (by decide) (by decide)).1).mpr ⟨hall, by decide, rfl⟩⟩

/-- C20 as stated fails: two runs that differ only in the arrival time of an
earlier event decide differently on the same later event. With
`nr_boost_cpus` = 0 and `input_boost_freqs[0]` = 0, an earlier event at
100000 us is not queued, and the event at 200000 us is queued; an earlier
event at 160000 us is queued, its boost work clamps `nr_boost_cpus` to 1, and
the event at 200000 us is not queued. -/
theorem C20_counterexample :
    run_driver example_env [.event 100000 100001, .work_runs, .event 200000 200001]
        ⟨zero_params, false⟩
      = [[], [], [.queue_work]]
    ∧ run_driver example_env [.event 160000 160001, .work_runs, .event 200000 200001]
        ⟨zero_params, false⟩
      = [[.queue_work], [], []]
    ∧ (driver_after example_env [.event 160000 160001, .work_runs]
        ⟨zero_params, false⟩).g.nr_boost_cpus = 1
    ∧ (driver_after example_env [.event 100000 100001, .work_runs]
        ⟨zero_params, false⟩).g.nr_boost_cpus = 0 := by
  decide

/-- The wrap of the interval product: with `min_input_interval` = 4294968 the
product 4294968 * 1000 = 4294968000 is 704 in 32 bits, and an event at
now = 1000 us, with the four boost frequencies non-zero and no work pending,
is queued although 1000 is below 4294968000. -/
theorem interval_product_wraps :
    (∀ i, i < (params 4294968).nr_boost_cpus → (params 4294968).input_boost_freqs i ≠ 0)
      ∧ (⟨1000, 1001, false⟩ : EventInput).work_pending = false
      ∧ ¬ ((⟨1000, 1001, false⟩ : EventInput).now ≥ (params 4294968).min_input_interval * 1000)
      ∧ (params 4294968).min_input_interval * 1000 % 2 ^ 32 = 704
      ∧ touchboost_input_event (params 4294968) ⟨1000, 1001, false⟩ = [.queue_work] := by
  refine ⟨?_, rfl, by decide, by decide, by decide⟩
  intro i hi
  have h4 : i < 4 := hi
  simp [params, h4]

end TouchBoost
